import Mathlib

/-! express-locallibrary: validation and referential-integrity layer

A shallow embedding of the controllers of the catalog
(`controllers/bookController.js`, `controllers/genreController.js`,
`controllers/bookinstanceController.js`) and of the two schema files
(`models/genre.js`, `models/bookinstance.js`).

Conventions of the embedding.

* The document store is an explicit value (`Store`) threaded through every
  handler; a handler returns the store it leaves behind together with the
  ordered list of calls it made on the response object and on `next`.
* `express-validator`, `validator.js` and Mongoose are third-party
  collaborators; the pieces the controllers rely on (`trim`, `isLength`,
  `escape`, `findById`, `find`, `findByIdAndDelete`, `save`) are modelled at
  the level of their documented contract.
* Identifiers are strings, a lookup of an identifier that is not stored
  yields `null` (`none`). The cast of the route identifier by the queries
  is modelled in `book_detail`, whose queries reject with a CastError for
  an identifier that is no ObjectId; the other handlers are modelled on
  identifiers their queries can cast. Of the casts of `new BookInstance`
  only the one of the empty string is modelled, which leaves the `book`
  path undefined. A store that fails for another reason is outside the
  model.
* Text inputs of a form are strings; the multi-valued `genre` input is
  kept as a raw JavaScript value and the optional `due_back` input may be
  absent.
* `findByIdAndUpdate(id, doc, {})` runs no schema validator, `save()` runs
  them all.
-/

namespace LocalLibrary

/-! ## JavaScript values of a parsed request body -/

/-- A value found in `req.body`: absent (`undefined`), JSON `null`, a JSON
boolean, a string, or an array of such values. -/
inductive JsVal where
  | undefined : JsVal
  | null : JsVal
  | bool (b : Bool) : JsVal
  | str (s : String) : JsVal
  | arr (xs : List JsVal) : JsVal
  deriving Repr, Inhabited

namespace JsVal

/-- JavaScript `Array.isArray(v)`. -/
def isArray : JsVal → Bool
  | arr _ => true
  | _ => false

/-- JavaScript `typeof v === "undefined"`. -/
def isUndefined : JsVal → Bool
  | undefined => true
  | _ => false

/-- The value is `null` or `undefined`. -/
def isNullish : JsVal → Bool
  | undefined => true
  | null => true
  | _ => false

/-- The value is `null`. -/
def isNull : JsVal → Bool
  | null => true
  | _ => false

/-- The entries of an array value; a value that is not an array has none. -/
def entries : JsVal → List JsVal
  | arr xs => xs
  | _ => []

end JsVal

mutual
/-- The text of a value as an item of `Array.prototype.join`: `null` and
`undefined` give the empty string, a nested array is joined in turn. -/
def JsVal.joinItem : JsVal → String
  | JsVal.undefined => ""
  | JsVal.null => ""
  | JsVal.bool b => if b then "true" else "false"
  | JsVal.str s => s
  | JsVal.arr xs => JsVal.joinItems xs
/-- JavaScript `xs.join(",")`. -/
def JsVal.joinItems : List JsVal → String
  | [] => ""
  | [x] => x.joinItem
  | x :: y :: rest => x.joinItem ++ "," ++ JsVal.joinItems (y :: rest)
end

/-- The string a validation chain works on (`toString` of
express-validator): `null` and `undefined` read as the empty string, a
non-empty array reads as its first item. -/
def JsVal.text : JsVal → String
  | JsVal.arr (x :: _) => x.joinItem
  | v => v.joinItem

/-- The first middleware of `book_create_post` and of `book_update_post`
(bookController.js lines 90-95 and 314-319), as a function of
`req.body.genre`:
`if (!Array.isArray(g)) g = typeof g === "undefined" ? [] : [g]`. -/
def normalizeGenre (g : JsVal) : JsVal :=
  if !g.isArray then
    (if g.isUndefined then JsVal.arr [] else JsVal.arr [g])
  else g

/-! ## Text sanitizers and validators (validator.js) -/

/-- A character matched by the JavaScript pattern `\s`, the class that
`trim()` strips. -/
def isJsSpace (c : Char) : Bool :=
  let n := c.toNat
  (9 ≤ n && n ≤ 13) || n == 32 || n == 160 || n == 0x1680 ||
  (0x2000 ≤ n && n ≤ 0x200a) || n == 0x2028 || n == 0x2029 ||
  n == 0x202f || n == 0x205f || n == 0x3000 || n == 0xfeff

/-- The sanitizer `trim()`: whitespace is removed from both ends. -/
def trim (s : String) : String :=
  String.mk ((s.data.dropWhile isJsSpace).reverse.dropWhile isJsSpace).reverse

/-- The replacement `escape()` makes for one character:
`&`, `"`, the apostrophe, `<`, `>`, `/`, the backslash and the backtick
become HTML entities, every other character is kept. -/
def escapeChar (c : Char) : List Char :=
  let n := c.toNat
  if n = 38 then "&amp;".data
  else if n = 34 then "&quot;".data
  else if n = 39 then "&#x27;".data
  else if n = 60 then "&lt;".data
  else if n = 62 then "&gt;".data
  else if n = 47 then "&#x2F;".data
  else if n = 92 then "&#x5C;".data
  else if n = 96 then "&#96;".data
  else [c]

/-- The sanitizer `escape()`. -/
def escape (s : String) : String :=
  String.mk (s.data.flatMap escapeChar)

/-- JavaScript `s.length`: the number of UTF-16 code units. -/
def jsLength (s : String) : Nat :=
  (s.data.map (fun c => if c.toNat < 0x10000 then 1 else 2)).sum

/-- A variation selector U+FE0E or U+FE0F. -/
def isVariationSelector (c : Char) : Bool :=
  c.toNat == 0xFE0E || c.toNat == 0xFE0F

/-- The scan behind `presentationSequences`; `pending` tells that the
character before the list is no variation selector, so that a selector at
the head of the list completes a match. -/
def scanSequences (pending : Bool) : List Char → Nat
  | [] => 0
  | c :: rest =>
      if isVariationSelector c then
        (if pending then scanSequences false rest + 1 else scanSequences false rest)
      else scanSequences true rest

/-- The number of matches of the pattern of `isLength` for presentation
sequences: scanning from the left, a character that is no variation
selector followed by a variation selector is one match, and the scan goes
on behind the selector. -/
def presentationSequences (l : List Char) : Nat :=
  scanSequences false l

/-- The length `isLength` of validator.js compares with its bounds: the
number of characters (a surrogate pair is one character), not counting a
variation selector that follows another character. -/
def validatorLength (s : String) : Nat :=
  s.length - presentationSequences s.data

/-- One entry of `validationResult(req).array()`: the field the failing
rule was declared for, the message of the rule, and the value that was
checked. -/
structure ValidationError where
  field : String
  msg : String
  value : String
  deriving DecidableEq, Repr

/-- The steps that occur in the validation chains of the controllers. -/
inductive ChainStep where
  | trim : ChainStep
  | isLength (min : Nat) : ChainStep
  | escape : ChainStep
  deriving DecidableEq, Repr

/-- Runs a chain `body(field, msg).step1().step2()...` on the value of the
field: a sanitizer replaces the value, a validator that fails records an
error and the chain goes on (no bail). Returns the sanitized value and
the errors in the order they were recorded. `isLength` compares the bound
with `validatorLength`. -/
def runChain (field msg : String) : List ChainStep → String → String × List ValidationError
  | [], v => (v, [])
  | ChainStep.trim :: rest, v => runChain field msg rest (trim v)
  | ChainStep.escape :: rest, v => runChain field msg rest (escape v)
  | ChainStep.isLength min :: rest, v =>
      let r := runChain field msg rest v
      (r.1, if min ≤ validatorLength v then r.2 else ⟨field, msg, v⟩ :: r.2)

/-! ## Data model -/

/-- Modelled from the spec: `models/author.js` is not among the sources; an
Author has a first name, a family name and optional birth and death dates
(milliseconds since the epoch). -/
structure Author where
  _id : String
  first_name : String
  family_name : String
  date_of_birth : Option Int
  date_of_death : Option Int
  deriving DecidableEq, Repr

/-- A Genre document (`models/genre.js`): the identifier and the name. -/
structure Genre where
  _id : String
  name : String
  deriving DecidableEq, Repr

/-- Modelled from the spec: `models/book.js` is not among the sources; the
fields are the ones the controller passes to `new Book({...})`: title,
author reference, summary, ISBN and the list of genre references. -/
structure Book where
  _id : String
  title : String
  author : String
  summary : String
  isbn : String
  genre : List String
  deriving DecidableEq, Repr

/-- A BookInstance document (`models/bookinstance.js`): the Copy of a Book.
`due_back` is a date in milliseconds since the epoch, or `null` (`none`)
when the document was written with an empty date. -/
structure BookInstance where
  _id : String
  book : String
  imprint : String
  status : String
  due_back : Option Int
  deriving DecidableEq, Repr

/-- The virtual `url` of a Genre (`models/genre.js` lines 10-12). -/
def Genre.url (g : Genre) : String := "/catalog/genre/" ++ g._id

/-- The virtual `url` of a BookInstance (`models/bookinstance.js`). -/
def BookInstance.url (b : BookInstance) : String := "/catalog/bookinstance/" ++ b._id

/-- Modelled from the spec: the virtual `url` of a Book, `/catalog/book/{id}`
(`models/book.js` is not among the sources). -/
def Book.url (b : Book) : String := "/catalog/book/" ++ b._id

/-- The enumeration of the `status` path of the BookInstance schema. -/
def BookInstance.statusEnum : List String :=
  ["Available", "Maintenance", "Loaned", "Reserved"]

/-- The document store: one collection per model, in natural order. -/
structure Store where
  authors : List Author
  genres : List Genre
  books : List Book
  bookinstances : List BookInstance
  deriving DecidableEq, Repr

/-- A Book as returned by `Book.find(filter, "title summary")`: the
projection keeps the identifier, the title and the summary. -/
structure BookSummary where
  _id : String
  title : String
  summary : String
  deriving DecidableEq, Repr

/-- A Book after `.populate("author").populate("genre")`: the references
are replaced by the documents they denote (`null` for a missing author,
missing genres are dropped). -/
structure PopulatedBook where
  _id : String
  title : String
  author : Option Author
  summary : String
  isbn : String
  genre : List Genre
  deriving DecidableEq, Repr

/-- A BookInstance after `.populate("book")`. -/
structure PopulatedBookInstance where
  _id : String
  book : Option Book
  imprint : String
  status : String
  due_back : Option Int
  deriving DecidableEq, Repr

/-- A Book as returned by `Book.find({}, "title")`: the projection keeps
the identifier and the title. -/
structure BookTitle where
  _id : String
  title : String
  deriving DecidableEq, Repr

/-- An in-memory document `new BookInstance({...})` that was not validated
yet: `book` is undefined (`none`) when the submitted value could not be
cast to an ObjectId, `due_back` is `null` (`none`) for an empty date. -/
structure BookInstanceDoc where
  _id : String
  book : Option String
  imprint : String
  status : String
  due_back : Option Int
  deriving DecidableEq, Repr

/-- The virtual `url` of an in-memory BookInstance. -/
def BookInstanceDoc.url (b : BookInstanceDoc) : String := "/catalog/bookinstance/" ++ b._id

/-! ## Store queries (Mongoose) -/

/-- The query `Author.findById(id)`. -/
def Author.findById (s : Store) (id : String) : Option Author :=
  s.authors.find? (fun a => a._id == id)

/-- The query `Genre.findById(id)`. -/
def Genre.findById (s : Store) (id : String) : Option Genre :=
  s.genres.find? (fun g => g._id == id)

/-- The query `Book.findById(id)`. -/
def Book.findById (s : Store) (id : String) : Option Book :=
  s.books.find? (fun b => b._id == id)

/-- The query `BookInstance.findById(id)`. -/
def BookInstance.findById (s : Store) (id : String) : Option BookInstance :=
  s.bookinstances.find? (fun b => b._id == id)

/-- The query `BookInstance.find({ book: id })`: the Copies that reference
the Book `id`. -/
def BookInstance.findByBook (s : Store) (id : String) : List BookInstance :=
  s.bookinstances.filter (fun b => b.book == id)

/-- The projection `"title summary"`. -/
def Book.summaryOf (b : Book) : BookSummary := ⟨b._id, b.title, b.summary⟩

/-- The query `Book.find({ genre: id }, "title summary")`: the Books whose
genre list holds `id`, projected. -/
def Book.findByGenre (s : Store) (id : String) : List BookSummary :=
  (s.books.filter (fun b => b.genre.contains id)).map Book.summaryOf

/-- The effect of `.populate("author").populate("genre")` on a Book. -/
def Book.populate (s : Store) (b : Book) : PopulatedBook :=
  { _id := b._id, title := b.title, author := Author.findById s b.author,
    summary := b.summary, isbn := b.isbn,
    genre := b.genre.filterMap (Genre.findById s) }

/-- The effect of `.populate("book")` on a BookInstance. -/
def BookInstance.populate (s : Store) (b : BookInstance) : PopulatedBookInstance :=
  { _id := b._id, book := Book.findById s b.book, imprint := b.imprint,
    status := b.status, due_back := b.due_back }

/-- The write `Book.findByIdAndDelete(id)`: the first Book with this
identifier is removed, a missing identifier removes nothing. -/
def Book.findByIdAndDelete (s : Store) (id : String) : Store :=
  { s with books := s.books.eraseP (fun b => b._id == id) }

/-- The write `Genre.findByIdAndDelete(id)`. -/
def Genre.findByIdAndDelete (s : Store) (id : String) : Store :=
  { s with genres := s.genres.eraseP (fun g => g._id == id) }

/-- The write `BookInstance.findByIdAndDelete(id)`. -/
def BookInstance.findByIdAndDelete (s : Store) (id : String) : Store :=
  { s with bookinstances := s.bookinstances.eraseP (fun b => b._id == id) }

/-- The order of two strings by code points, the order of a store sort
with no collation: `true` when the first is not after the second. -/
def charsLE : List Char → List Char → Bool
  | [], _ => true
  | _ :: _, [] => false
  | a :: as, b :: bs => a.toNat < b.toNat || (a.toNat == b.toNat && charsLE as bs)

/-- The result of `.sort({ key: 1 })`: the documents in ascending order of
the key, documents with equal keys in their stored order. -/
def sortByKey {α : Type} (key : α → String) (l : List α) : List α :=
  l.insertionSort (fun a b => charsLE (key a).data (key b).data = true)

/-- The query `Author.find().sort({ family_name: 1 })`. -/
def Author.findSorted (s : Store) : List Author :=
  sortByKey (fun a => a.family_name) s.authors

/-- The query `Genre.find().sort({ name: 1 })`. -/
def Genre.findSorted (s : Store) : List Genre :=
  sortByKey (fun g => g.name) s.genres

/-- The projection `"title"`. -/
def Book.titleOf (b : Book) : BookTitle := ⟨b._id, b.title⟩

/-- The query `Book.find({}, "title").sort({ title: 1 })`. -/
def Book.findTitlesSorted (s : Store) : List BookTitle :=
  (sortByKey (fun b => b.title) s.books).map Book.titleOf

/-- Applies `f` to the first element that satisfies `p`. -/
def updateFirst {α : Type} (p : α → Bool) (f : α → α) : List α → List α
  | [] => []
  | a :: l => if p a then f a :: l else a :: updateFirst p f l

/-- The write `Genre.findByIdAndUpdate(id, genre, {})`: the name of the
stored Genre `id` is replaced by the name of `genre`; no schema validator
runs (the options do not ask for it). Returns the document found, as it
was before the update, and the store. -/
def Genre.findByIdAndUpdate (s : Store) (id : String) (genre : Genre) : Option Genre × Store :=
  let updated := updateFirst (fun g => g._id == id)
    (fun old => { old with name := genre.name }) s.genres
  (Genre.findById s id, { s with genres := updated })

/-- The write `Book.findByIdAndUpdate(id, book, {})`: every field of the
stored Book `id` but the identifier is replaced. -/
def Book.findByIdAndUpdate (s : Store) (id : String) (book : Book) : Option Book × Store :=
  let updated := updateFirst (fun b => b._id == id)
    (fun old => { book with _id := old._id }) s.books
  (Book.findById s id, { s with books := updated })

/-- The write `BookInstance.findByIdAndUpdate(id, bookInstance, {})`: the
fields the in-memory document holds replace those of the stored Copy `id`;
no schema validator runs. -/
def BookInstance.findByIdAndUpdate (s : Store) (id : String) (doc : BookInstanceDoc) :
    Option BookInstance × Store :=
  let updated := updateFirst (fun b => b._id == id)
    (fun old => { _id := old._id, book := doc.book.getD old.book, imprint := doc.imprint,
                  status := doc.status, due_back := doc.due_back }) s.bookinstances
  (BookInstance.findById s id, { s with bookinstances := updated })

/-- The query `Genre.findOne({ name }).collation({ locale: "en", strength: 2 })`.
The comparison of the store is the parameter `collEq stored queried`; the
first stored Genre whose name it accepts is returned. -/
def Genre.findOneByName (collEq : String → String → Bool) (s : Store) (name : String) :
    Option Genre :=
  s.genres.find? (fun g => collEq g.name name)

/-- The lower-case form of a letter of the ASCII and Latin-1 ranges
(`A`-`Z`, `À`-`Þ` without the multiplication sign); any other character is
kept. An accented letter keeps its accent. -/
def foldCase (c : Char) : Char :=
  let n := c.toNat
  if (65 ≤ n ∧ n ≤ 90) ∨ (192 ≤ n ∧ n ≤ 222 ∧ n ≠ 215) then Char.ofNat (n + 32) else c

/-- A model of the comparison of the collation `{ locale: "en", strength: 2 }`
(base letters and accents count, case does not) on names written with
ASCII and Latin-1 letters: two names compare equal when they agree after
every letter is lower-cased. Accented letters stay different from their
base letters. -/
def collationEn2 (a b : String) : Bool :=
  a.data.map foldCase == b.data.map foldCase

/-! ## Requests, responses and handler outcomes -/

/-- The fields of `req.body` the handlers read. Text inputs are strings (an
input that was not submitted reads as the empty string); `genre` is the raw
value of the multi-valued field; `due_back`, whose chain is optional, is
`none` when the input was not submitted. -/
structure Body where
  name : String := ""
  title : String := ""
  author : String := ""
  summary : String := ""
  isbn : String := ""
  genre : JsVal := JsVal.undefined
  bookid : String := ""
  genreid : String := ""
  bookinstanceid : String := ""
  book : String := ""
  imprint : String := ""
  status : String := ""
  due_back : Option String := none

/-- A request: the route parameter `req.params.id` and the parsed body. -/
structure Request where
  params_id : String
  body : Body := {}

/-- An error handed to `next`: either `new Error(message)` with a `status`
set by the handler, or the validation error `save()` rejects with, naming
the model, the path and the validator that failed, or an exception the
handler body throws (`asyncHandler` forwards it), naming its class and the
expression that raised it. `validations` is the validation error of a
model with several paths: the failing paths, each with the validator that
failed. `cast` is the CastError a query rejects with when a value of its
filter cannot be cast to the type of the path; it carries no `status`. -/
inductive AppError where
  | http (status : Nat) (message : String) : AppError
  | validation (model path kind : String) : AppError
  | thrown (kind expr : String) : AppError
  | validations (model : String) (failures : List (String × String)) : AppError
  | cast (kind value : String) : AppError
  deriving DecidableEq, Repr

/-- A value of a view-model passed to `res.render`. In `genreOptions` every
Genre comes with the flag that tells whether the handler set its `checked`
property to "true". -/
inductive Local where
  | str (s : String) : Local
  | book (b : Option Book) : Local
  | bookPopulated (b : PopulatedBook) : Local
  | bookinstances (xs : List BookInstance) : Local
  | bookinstancePopulated (x : Option PopulatedBookInstance) : Local
  | genre (g : Option Genre) : Local
  | bookSummaries (xs : List BookSummary) : Local
  | errors (es : List ValidationError) : Local
  | authors (xs : List Author) : Local
  | genreOptions (xs : List (Genre × Bool)) : Local
  | bookTitles (xs : List BookTitle) : Local
  | strs (xs : List String) : Local
  | bookinstanceDoc (x : BookInstanceDoc) : Local
  deriving DecidableEq, Repr

/-- A call a handler makes on its collaborators: `res.render(view, locals)`,
`res.redirect(url)` or `next(err)`. -/
inductive Call where
  | render (view : String) (locals : List (String × Local)) : Call
  | redirect (url : String) : Call
  | next (err : AppError) : Call
  deriving DecidableEq, Repr

/-- What a handler leaves behind: the store after its writes and the calls
it made on `res` and `next`, in the order it made them. -/
structure Outcome where
  store : Store
  calls : List Call
  deriving DecidableEq, Repr

/-- The call is a `res.render`. -/
def Call.isRender : Call → Bool
  | Call.render _ _ => true
  | _ => false

/-- The value a view-model holds under a key. -/
def lookupLocal (key : String) (locals : List (String × Local)) : Option Local :=
  (locals.find? (fun kv => kv.1 == key)).map (fun kv => kv.2)

/-! ## Schema validation on `save()` -/

/-- The validators of the `name` path of `GenreSchema`
(`required: true, minLength: 3, maxLength: 100`), run by `save()` in this
order on the JavaScript length of the name; the first that fails is
reported. -/
def Genre.validate (g : Genre) : Option AppError :=
  if g.name = "" then some (AppError.validation "Genre" "name" "required")
  else if jsLength g.name < 3 then some (AppError.validation "Genre" "name" "minlength")
  else if 100 < jsLength g.name then some (AppError.validation "Genre" "name" "maxlength")
  else none

/-- The write `genre.save()`: the document is validated against the schema
and inserted when it passes; otherwise the promise rejects and the store is
untouched. -/
def Genre.save (s : Store) (g : Genre) : Except AppError Store :=
  match Genre.validate g with
  | some e => Except.error e
  | none => Except.ok { s with genres := s.genres ++ [g] }

/-- Modelled from the spec: `models/book.js` is not among the sources; the
validators `save()` runs on a Book require a non-empty title, author,
summary and ISBN. The result lists the failing paths. -/
def Book.validate (b : Book) : List (String × String) :=
  (if b.title = "" then [("title", "required")] else []) ++
  (if b.author = "" then [("author", "required")] else []) ++
  (if b.summary = "" then [("summary", "required")] else []) ++
  (if b.isbn = "" then [("isbn", "required")] else [])

/-- The write `book.save()`. -/
def Book.save (s : Store) (b : Book) : Except AppError Store :=
  if Book.validate b = [] then Except.ok { s with books := s.books ++ [b] }
  else Except.error (AppError.validations "Book" (Book.validate b))

/-- The cast of the `book` path of `new BookInstance({...})` to an
ObjectId: the empty string is no ObjectId, the cast fails and the path
stays undefined; any other string is taken as an identifier (identifiers
are opaque here). -/
def castObjectId (v : String) : Option String :=
  if v = "" then none else some v

/-- The validators of `BookInstanceSchema` run by `save()`, path by path:
`book` and `imprint` are required, `status` is required and restricted to
the enumeration, `due_back` has none. The result lists the failing paths. -/
def BookInstanceDoc.validate (d : BookInstanceDoc) : List (String × String) :=
  (if d.book.isNone then [("book", "required")] else []) ++
  (if d.imprint = "" then [("imprint", "required")] else []) ++
  (if d.status = "" then [("status", "required")]
   else if BookInstance.statusEnum.contains d.status then []
   else [("status", "enum")])

/-- The write `bookInstance.save()`: the document is inserted when every
validator of the schema passes. -/
def BookInstanceDoc.save (s : Store) (d : BookInstanceDoc) : Except AppError Store :=
  match d.book with
  | some b =>
      if BookInstanceDoc.validate d = [] then
        Except.ok { s with bookinstances :=
          s.bookinstances ++ [⟨d._id, b, d.imprint, d.status, d.due_back⟩] }
      else Except.error (AppError.validations "BookInstance" (BookInstanceDoc.validate d))
  | none => Except.error (AppError.validations "BookInstance" (BookInstanceDoc.validate d))

/-! ## Date inputs -/

/-- The two date functions of validator.js the `due_back` chain uses:
the validator `isISO8601()` and the sanitizer `toDate()`, which yields the
date in milliseconds since the epoch or `null` when the text is no date. -/
structure DateLib where
  isISO8601 : String → Bool
  toDate : String → Option Int

/-- The errors of the chain
`body("due_back", msg).optional({ values: "falsy" }).isISO8601().toDate()`:
an input that is absent or empty is skipped, any other input must pass
`isISO8601`. -/
def dueBackErrors (dates : DateLib) (msg : String) (v : Option String) :
    List ValidationError :=
  match v with
  | none => []
  | some t =>
      if t = "" then [] else if dates.isISO8601 t then [] else [⟨"due_back", msg, t⟩]

/-- The `due_back` of `new BookInstance({ due_back: req.body.due_back })`
after the chain ran: an absent input takes the default of the schema
(`Date.now`, here `now`), an empty input is cast to `null`, any other input
was replaced by `toDate`. -/
def dueBackValue (dates : DateLib) (now : Int) (v : Option String) : Option Int :=
  match v with
  | none => some now
  | some t => if t = "" then none else dates.toDate t

/-! ## Validation rules of the Book forms -/

/-- A declared chain `body(field, msg).steps...`. -/
structure FieldRule where
  field : String
  msg : String
  steps : List ChainStep
  deriving DecidableEq, Repr

/-- The text input of the body a rule is declared for. -/
def Body.textField (b : Body) (field : String) : String :=
  if field = "name" then b.name
  else if field = "title" then b.title
  else if field = "author" then b.author
  else if field = "summary" then b.summary
  else if field = "isbn" then b.isbn
  else ""

/-- The errors the chains of `rules` record on a body, chain after chain in
the declared order. -/
def fieldErrors (b : Body) (rules : List FieldRule) : List ValidationError :=
  rules.flatMap (fun r => (runChain r.field r.msg r.steps (b.textField r.field)).2)

/-- The errors of the chain `body("genre.*").escape()`, run on every entry
of the normalized genre array. -/
def genreItemErrors (g : JsVal) : List ValidationError :=
  g.entries.flatMap
    (fun x => (runChain "genre.*" "Invalid value" [ChainStep.escape] x.text).2)

/-- The chains of `book_create_post` for the text inputs
(bookController.js lines 112-127). -/
def book_create_post_rules : List FieldRule :=
  [ ⟨"title", "Title must not be empty.",
      [ChainStep.trim, ChainStep.isLength 1, ChainStep.escape]⟩,
    ⟨"author", "Author must not be empty.",
      [ChainStep.trim, ChainStep.isLength 1, ChainStep.escape]⟩,
    ⟨"summary", "Summary must not be empty.",
      [ChainStep.trim, ChainStep.isLength 1, ChainStep.escape]⟩,
    ⟨"isbn", "ISBN must not be empty",
      [ChainStep.trim, ChainStep.isLength 1, ChainStep.escape]⟩ ]

/-- The chains of `book_update_post` for the text inputs
(bookController.js lines 322-337). -/
def book_update_post_rules : List FieldRule :=
  [ ⟨"title", "Title must not be empty.",
      [ChainStep.trim, ChainStep.isLength 1, ChainStep.escape]⟩,
    ⟨"author", "Author must not be empty.",
      [ChainStep.trim, ChainStep.isLength 1, ChainStep.escape]⟩,
    ⟨"summary", "Summary must not be empty.",
      [ChainStep.trim, ChainStep.isLength 1, ChainStep.escape]⟩,
    ⟨"isbn", "ISBN must not be empty.",
      [ChainStep.trim, ChainStep.isLength 1, ChainStep.escape]⟩ ]

/-- The list `validationResult(req).array()` of `book_create_post`: the
genre is normalized first, then the four text chains and the `genre.*`
chain run. -/
def book_create_post_errors (b : Body) : List ValidationError :=
  fieldErrors b book_create_post_rules ++ genreItemErrors (normalizeGenre b.genre)

/-- The list `validationResult(req).array()` of `book_update_post`. -/
def book_update_post_errors (b : Body) : List ValidationError :=
  fieldErrors b book_update_post_rules ++ genreItemErrors (normalizeGenre b.genre)

/-! ## Handlers of bookController.js -/

/-- A hexadecimal digit. -/
def isHexDigit (c : Char) : Bool :=
  let n := c.toNat
  (48 ≤ n && n ≤ 57) || (65 ≤ n && n ≤ 70) || (97 ≤ n && n ≤ 102)

/-- The strings a query can cast to an ObjectId: 24 hexadecimal digits. -/
def isObjectId (id : String) : Bool :=
  id.length == 24 && id.data.all isHexDigit

/-- The cast of an identifier in the filter of a query, done when the
query is executed: an identifier that is no ObjectId makes the query
reject with a CastError. -/
def castQueryId (id : String) : Except AppError String :=
  if isObjectId id then Except.ok id else Except.error (AppError.cast "ObjectId" id)

/-- The executed query `Book.findById(id).populate("author").populate("genre")`:
the identifier is cast, then looked up. -/
def Book.findByIdExec (s : Store) (id : String) : Except AppError (Option PopulatedBook) :=
  match castQueryId id with
  | Except.ok key => Except.ok ((Book.findById s key).map (Book.populate s))
  | Except.error e => Except.error e

/-- The executed query `BookInstance.find({ book: id })`: the identifier
is cast, then the Copies are filtered. -/
def BookInstance.findByBookExec (s : Store) (id : String) :
    Except AppError (List BookInstance) :=
  match castQueryId id with
  | Except.ok key => Except.ok (BookInstance.findByBook s key)
  | Except.error e => Except.error e

/-- The handler `book_detail` (lines 49-68). `Promise.all` waits for both
queries; when one rejects, the rejection is forwarded to `next` by
`asyncHandler` and the body below the `await` does not run. -/
def book_detail (s : Store) (req : Request) : Outcome :=
  match Book.findByIdExec s req.params_id, BookInstance.findByBookExec s req.params_id with
  | Except.error e, _ => ⟨s, [Call.next e]⟩
  | Except.ok _, Except.error e => ⟨s, [Call.next e]⟩
  | Except.ok book, Except.ok bookInstances =>
      match book with
      | none => ⟨s, [Call.next (AppError.http 404 "Book not found")]⟩
      | some b =>
          ⟨s, [Call.render "book_detail"
                [("title", Local.str b.title), ("book", Local.bookPopulated b),
                 ("book_instances", Local.bookinstances bookInstances)]]⟩

/-- The handler `book_delete_get` (lines 232-248): the redirect of the
not-found branch is not followed by a `return`, so the render below it
runs as well. -/
def book_delete_get (s : Store) (req : Request) : Outcome :=
  let book := Book.findById s req.params_id
  let bookInstances := BookInstance.findByBook s req.params_id
  let first := if book.isNone then [Call.redirect "/catalog/books"] else []
  ⟨s, first ++
    [Call.render "book_delete"
      [("title", Local.str "Delete Book"), ("book", Local.book book),
       ("book_instances", Local.bookinstances bookInstances)]]⟩

/-- The handler `book_delete_post` (lines 251-270): the Copies are looked up
under `req.params.id`, the delete is issued for `req.body.bookid`. -/
def book_delete_post (s : Store) (req : Request) : Outcome :=
  let book := Book.findById s req.params_id
  let bookInstances := BookInstance.findByBook s req.params_id
  if bookInstances.length > 0 then
    ⟨s, [Call.render "book_delete"
          [("title", Local.str "Delete Book"), ("book", Local.book book),
           ("book_instances", Local.bookinstances bookInstances)]]⟩
  else
    ⟨Book.findByIdAndDelete s req.body.bookid, [Call.redirect "/catalog/books"]⟩

/-! ## Handlers of genreController.js -/

/-- The chain of `genre_create_post` and `genre_update_post` for `name`
(genreController.js lines 69 and 176-179). -/
def genre_name_rule : FieldRule :=
  ⟨"name", "Genre name must contain at least 3 characters",
    [ChainStep.trim, ChainStep.isLength 3, ChainStep.escape]⟩

/-- The handler `genre_create_post` (lines 64-113). `collEq` is the
comparison of the store under the collation of the lookup, `newId` the
identifier `new Genre(...)` assigns. A rejected `save()` is forwarded to
`next` by `asyncHandler`. -/
def genre_create_post (collEq : String → String → Bool) (newId : String)
    (s : Store) (req : Request) : Outcome :=
  let checked := runChain genre_name_rule.field genre_name_rule.msg genre_name_rule.steps
    req.body.name
  let name := checked.1
  let errors := checked.2
  let genre : Genre := ⟨newId, name⟩
  if !errors.isEmpty then
    ⟨s, [Call.render "genre_form"
          [("title", Local.str "Create Genre"), ("genre", Local.genre (some genre)),
           ("errors", Local.errors errors)]]⟩
  else
    match Genre.findOneByName collEq s name with
    | some genreExists => ⟨s, [Call.redirect genreExists.url]⟩
    | none =>
        match Genre.save s genre with
        | Except.ok s1 => ⟨s1, [Call.redirect genre.url]⟩
        | Except.error e => ⟨s, [Call.next e]⟩

/-- The handler `genre_delete_get` (lines 116-132): as in `book_delete_get`
the not-found redirect falls through to the render. -/
def genre_delete_get (s : Store) (req : Request) : Outcome :=
  let genre := Genre.findById s req.params_id
  let allBooksByGenre := Book.findByGenre s req.params_id
  let first := if genre.isNone then [Call.redirect "/catalog/genres"] else []
  ⟨s, first ++
    [Call.render "genre_delete"
      [("title", Local.str "Delete Genre"), ("genre", Local.genre genre),
       ("genre_books", Local.bookSummaries allBooksByGenre)]]⟩

/-- The handler `genre_delete_post` (lines 135-154). -/
def genre_delete_post (s : Store) (req : Request) : Outcome :=
  let genre := Genre.findById s req.params_id
  let allBooksByGenre := Book.findByGenre s req.params_id
  if allBooksByGenre.length > 0 then
    ⟨s, [Call.render "genre_delete"
          [("title", Local.str "Delete Genre"), ("genre", Local.genre genre),
           ("genre_books", Local.bookSummaries allBooksByGenre)]]⟩
  else
    ⟨Genre.findByIdAndDelete s req.body.genreid, [Call.redirect "/catalog/genres"]⟩

/-! ## Handlers of bookinstanceController.js -/

/-- The handler `bookinstance_delete_get` (lines 128-141). -/
def bookinstance_delete_get (s : Store) (req : Request) : Outcome :=
  let bookInstance := (BookInstance.findById s req.params_id).map (BookInstance.populate s)
  let first := if bookInstance.isNone then [Call.redirect "/catalog/bookinstances"] else []
  ⟨s, first ++
    [Call.render "bookinstance_delete"
      [("title", Local.str "Delete BookInstance"),
       ("bookInstance", Local.bookinstancePopulated bookInstance)]]⟩

/-- The handler `bookinstance_delete_post` (lines 144-154): after the
not-found redirect the delete and the second redirect still run. -/
def bookinstance_delete_post (s : Store) (req : Request) : Outcome :=
  let bookInstance := (BookInstance.findById s req.params_id).map (BookInstance.populate s)
  let first := if bookInstance.isNone then [Call.redirect "/catalog/bookinstances"] else []
  ⟨BookInstance.findByIdAndDelete s req.body.bookinstanceid,
    first ++ [Call.redirect "/catalog/bookinstances"]⟩

/-! ## Write handlers of bookController.js -/

/-- The value `req.body[field]` holds after the chain that `rules` declare
for the field has run. -/
def fieldValue (b : Body) (rules : List FieldRule) (field : String) : String :=
  match rules.find? (fun r => r.field == field) with
  | some r => (runChain r.field r.msg r.steps (b.textField r.field)).1
  | none => b.textField field

/-- The array `req.body.genre` holds after the normalization and after
`body("genre.*").escape()` replaced every entry by its escaped text. An
entry that is itself an array is read through its text here; what a Book
keeps of such an entry is decided by `models/book.js`, which is not among
the sources. -/
def genreItems (g : JsVal) : List String :=
  (normalizeGenre g).entries.map
    (fun x => (runChain "genre.*" "Invalid value" [ChainStep.escape] x.text).1)

/-- The loop `for (const genre of allGenres)` of the redisplay branch: every
Genre of the list whose identifier the Book holds gets `checked = "true"`. -/
def markChecked (book : Book) (allGenres : List Genre) : List (Genre × Bool) :=
  allGenres.map (fun genre => (genre, book.genre.contains genre._id))

/-- The final handler of `book_create_post` (lines 134-228), run after the
middleware of the array; `newId` is the identifier `new Book(...)` assigns. -/
def book_create_post (newId : String) (s : Store) (req : Request) : Outcome :=
  let errors := book_create_post_errors req.body
  let book : Book :=
    { _id := newId,
      title := fieldValue req.body book_create_post_rules "title",
      author := fieldValue req.body book_create_post_rules "author",
      summary := fieldValue req.body book_create_post_rules "summary",
      isbn := fieldValue req.body book_create_post_rules "isbn",
      genre := genreItems req.body.genre }
  if !errors.isEmpty then
    let allAuthors := Author.findSorted s
    let allGenres := Genre.findSorted s
    ⟨s, [Call.render "book_form"
          [("title", Local.str "Create Book"), ("authors", Local.authors allAuthors),
           ("genres", Local.genreOptions (markChecked book allGenres)),
           ("book", Local.book (some book)), ("errors", Local.errors errors)]]⟩
  else
    match Book.save s book with
    | Except.ok s1 => ⟨s1, [Call.redirect book.url]⟩
    | Except.error e => ⟨s, [Call.next e]⟩

/-- The final handler of `book_update_post` (lines 360-431). The Book takes
the identifier of the route; `updatedBook.url` throws when the identifier
is not stored. -/
def book_update_post (s : Store) (req : Request) : Outcome :=
  let errors := book_update_post_errors req.body
  let book : Book :=
    { _id := req.params_id,
      title := fieldValue req.body book_update_post_rules "title",
      author := fieldValue req.body book_update_post_rules "author",
      summary := fieldValue req.body book_update_post_rules "summary",
      isbn := fieldValue req.body book_update_post_rules "isbn",
      genre := if (normalizeGenre req.body.genre).isUndefined then []
               else genreItems req.body.genre }
  if !errors.isEmpty then
    let allAuthors := Author.findSorted s
    let allGenres := Genre.findSorted s
    ⟨s, [Call.render "book_form"
          [("title", Local.str "Update Book"), ("authors", Local.authors allAuthors),
           ("genres", Local.genreOptions (markChecked book allGenres)),
           ("book", Local.book (some book)), ("errors", Local.errors errors)]]⟩
  else
    let updated := Book.findByIdAndUpdate s req.params_id book
    match updated.1 with
    | some updatedBook => ⟨updated.2, [Call.redirect updatedBook.url]⟩
    | none => ⟨updated.2, [Call.next (AppError.thrown "TypeError" "updatedBook.url")]⟩

/-! ## Write handlers of genreController.js -/

/-- The handler `genre_update_post` (lines 174-207): no lookup of the name
precedes the update. -/
def genre_update_post (s : Store) (req : Request) : Outcome :=
  let checked := runChain genre_name_rule.field genre_name_rule.msg genre_name_rule.steps
    req.body.name
  let errors := checked.2
  let genre : Genre := ⟨req.params_id, checked.1⟩
  if !errors.isEmpty then
    ⟨s, [Call.render "genre_form"
          [("title", Local.str "Update Genre"), ("genre", Local.genre (some genre)),
           ("errors", Local.errors errors)]]⟩
  else
    let updated := Genre.findByIdAndUpdate s req.params_id genre
    match updated.1 with
    | some updatedGenre => ⟨updated.2, [Call.redirect updatedGenre.url]⟩
    | none => ⟨updated.2, [Call.next (AppError.thrown "TypeError" "updatedGenre.url")]⟩

/-! ## Write handlers of bookinstanceController.js -/

/-- The errors of the four chains of the BookInstance forms (lines 51-60
and 184-190); `dateMsg` is the message of the `due_back` chain. -/
def bookinstance_errors (dates : DateLib) (dateMsg : String) (b : Body) :
    List ValidationError :=
  (runChain "book" "Book must be specified"
    [ChainStep.trim, ChainStep.isLength 1, ChainStep.escape] b.book).2 ++
  (runChain "imprint" "Imprint must be specified"
    [ChainStep.trim, ChainStep.isLength 1, ChainStep.escape] b.imprint).2 ++
  (runChain "status" "Invalid value" [ChainStep.escape] b.status).2 ++
  dueBackErrors dates dateMsg b.due_back

/-- The document `new BookInstance({...})` built from the sanitized body,
with the identifier `id`. -/
def bookinstance_doc (dates : DateLib) (now : Int) (id : String) (b : Body) : BookInstanceDoc :=
  { _id := id,
    book := castObjectId (runChain "book" "Book must be specified"
      [ChainStep.trim, ChainStep.isLength 1, ChainStep.escape] b.book).1,
    imprint := (runChain "imprint" "Imprint must be specified"
      [ChainStep.trim, ChainStep.isLength 1, ChainStep.escape] b.imprint).1,
    status := (runChain "status" "Invalid value" [ChainStep.escape] b.status).1,
    due_back := dueBackValue dates now b.due_back }

/-- The handler `bookinstance_create_post` (lines 49-125). In the
redisplay branch `bookInstance.book._id` is read: it throws when `book` is
undefined. -/
def bookinstance_create_post (dates : DateLib) (now : Int) (newId : String)
    (s : Store) (req : Request) : Outcome :=
  let errors := bookinstance_errors dates "invalid date" req.body
  let bookInstance := bookinstance_doc dates now newId req.body
  if !errors.isEmpty then
    let allBooks := Book.findTitlesSorted s
    let status_list := BookInstance.statusEnum
    match bookInstance.book with
    | none => ⟨s, [Call.next (AppError.thrown "TypeError" "bookInstance.book._id")]⟩
    | some selected =>
        ⟨s, [Call.render "bookinstance_form"
              [("title", Local.str "Create BookInstance"),
               ("book_list", Local.bookTitles allBooks),
               ("selected_book", Local.str selected),
               ("errors", Local.errors errors),
               ("bookinstance", Local.bookinstanceDoc bookInstance),
               ("status_list", Local.strs status_list)]]⟩
  else
    match BookInstanceDoc.save s bookInstance with
    | Except.ok s1 => ⟨s1, [Call.redirect bookInstance.url]⟩
    | Except.error e => ⟨s, [Call.next e]⟩

/-- The handler `bookinstance_update_get` (lines 157-179). The view-model
of the render names `errors.array()`, and no `errors` is declared in the
handler or in the module: building the view-model throws before
`res.render` is called (`bookInstance.book._id` throws first when the Book
of the Copy is missing). -/
def bookinstance_update_get (s : Store) (req : Request) : Outcome :=
  let bookInstance := (BookInstance.findById s req.params_id).map (BookInstance.populate s)
  match bookInstance with
  | none => ⟨s, [Call.next (AppError.http 404 "BookInstance not found")]⟩
  | some found =>
      match found.book with
      | none => ⟨s, [Call.next (AppError.thrown "TypeError" "bookInstance.book._id")]⟩
      | some _ => ⟨s, [Call.next (AppError.thrown "ReferenceError" "errors")]⟩

/-- The handler `bookinstance_update_post` (lines 182-226). The view-model
of the redisplay branch has no `status_list` (the line is commented out). -/
def bookinstance_update_post (dates : DateLib) (now : Int) (s : Store) (req : Request) :
    Outcome :=
  let errors := bookinstance_errors dates "Invalid date" req.body
  let bookInstance := bookinstance_doc dates now req.params_id req.body
  if !errors.isEmpty then
    let allBooks := Book.findTitlesSorted s
    match bookInstance.book with
    | none => ⟨s, [Call.next (AppError.thrown "TypeError" "bookInstance.book._id")]⟩
    | some selected =>
        ⟨s, [Call.render "bookinstance_form"
              [("title", Local.str "Update BookInstance"),
               ("bookinstance", Local.bookinstanceDoc bookInstance),
               ("book_list", Local.bookTitles allBooks),
               ("selected_book", Local.str selected),
               ("errors", Local.errors errors)]]⟩
  else
    ⟨(BookInstance.findByIdAndUpdate s req.params_id bookInstance).2,
      [Call.redirect bookInstance.url]⟩

/-- No two Genres of the list have names the comparison `collEq` takes
for equal, in either order. -/
def namesUnique (collEq : String → String → Bool) : List Genre → Bool
  | [] => true
  | g :: rest =>
      rest.all (fun h => !collEq g.name h.name && !collEq h.name g.name) &&
        namesUnique collEq rest

/-- The in-memory Book the Book handlers build from the sanitized body:
the four text inputs trimmed and escaped, the genre entries escaped. -/
def sanitizedBook (id : String) (b : Body) : Book :=
  { _id := id, title := escape (trim b.title), author := escape (trim b.author),
    summary := escape (trim b.summary), isbn := escape (trim b.isbn),
    genre := (normalizeGenre b.genre).entries.map (fun x => escape x.text) }

/-! ## Sample data -/

/-- The store with no documents. -/
def emptyStore : Store := ⟨[], [], [], []⟩

/-- A name of 101 letters. -/
def longName : String := String.mk (List.replicate 101 (Char.ofNat 97))

/-- A store holding the Genres "Horror" and "Fantasy", in this order. -/
def horrorFantasyStore : Store := ⟨[], [⟨"g3", "Horror"⟩, ⟨"g0", "Fantasy"⟩], [], []⟩

/-- A store holding the single Genre "Fantasy". -/
def fantasyStore : Store := ⟨[], [⟨"g0", "Fantasy"⟩], [], []⟩

/-- A Book with identifier "a". -/
def bookA : Book := ⟨"a", "Dune", "au1", "Sand", "111", ["g0"]⟩

/-- A Book with identifier "b". -/
def bookB : Book := ⟨"b", "Emma", "au2", "Love", "222", []⟩

/-- A Copy of the Book "b". -/
def copyOfB : BookInstance := ⟨"c1", "b", "Print 1", "Available", some 0⟩

/-- A store with the Genre "Fantasy", the Books "a" (no Copy, tagged with
the Genre) and "b" (one Copy). -/
def libraryStore : Store := ⟨[], [⟨"g0", "Fantasy"⟩], [bookA, bookB], [copyOfB]⟩

/-- A store whose only document is a Copy that references the Book "x",
which is not stored. -/
def orphanStore : Store := ⟨[], [], [], [⟨"c9", "x", "Print 9", "Loaned", some 0⟩]⟩

/-- A store with the Genres "Fantasy" and "Horror". -/
def twoGenresStore : Store := ⟨[], [⟨"g0", "Fantasy"⟩, ⟨"g1", "Horror"⟩], [], []⟩

/-- A sample of the date functions that knows the single date 2030-01-31. -/
def sampleDates : DateLib :=
  { isISO8601 := fun t => t == "2030-01-31",
    toDate := fun t => if t == "2030-01-31" then some 1895961600000 else none }

/-- A store with two Authors and three Genres, none in the order of the
sort key. -/
def shelfStore : Store :=
  ⟨[⟨"au1", "Jane", "Woolf", none, none⟩, ⟨"au2", "Frank", "Austen", none, none⟩],
   [⟨"g2", "Horror"⟩, ⟨"g0", "Fantasy"⟩, ⟨"g1", "Poetry"⟩], [], []⟩

/-- A store whose only document is a Copy that references a Book with a
well-formed identifier that is not stored. -/
def danglingStore : Store :=
  ⟨[], [], [],
   [⟨"65f0a1b2c3d4e5f6a7b8c9d1", "65f0a1b2c3d4e5f6a7b8c9d0", "Print 9", "Loaned", some 0⟩]⟩

/-! ## Theorems -/

/-! ### Sanitizers and chains -/

theorem runChain_trim_isLength_escape (field msg : String) (n : Nat) (v : String) :
    runChain field msg [ChainStep.trim, ChainStep.isLength n, ChainStep.escape] v =
      (escape (trim v), if n ≤ validatorLength (trim v) then [] else [⟨field, msg, trim v⟩]) := by
  simp [runChain]

theorem scanSequences_le (l : List Char) :
    2 * scanSequences false l ≤ l.length ∧ 2 * scanSequences true l ≤ l.length + 1 := by
  induction l with
  | nil => simp [scanSequences]
  | cons c cs ih =>
      obtain ⟨ih1, ih2⟩ := ih
      by_cases hc : isVariationSelector c = true
      · simp only [scanSequences, hc, if_true, List.length_cons, Bool.false_eq_true, if_false]
        omega
      · simp only [scanSequences, hc, List.length_cons, Bool.false_eq_true, if_false]
        omega

theorem validatorLength_le (t : String) : validatorLength t ≤ t.length :=
  Nat.sub_le _ _

theorem one_le_validatorLength_iff (t : String) : 1 ≤ validatorLength t ↔ t ≠ "" := by
  have hscan := (scanSequences_le t.data).1
  have hlen : t.length = t.data.length := rfl
  unfold validatorLength presentationSequences
  constructor
  · intro h ht
    rw [ht] at h
    exact absurd h (by decide)
  · intro ht
    have hpos : 1 ≤ t.data.length := by
      cases hd : t.data with
      | nil => exact absurd (String.ext hd) ht
      | cons c cs => simp
    omega

theorem runChain_escape (field msg v : String) :
    runChain field msg [ChainStep.escape] v = (escape v, []) := by
  simp [runChain]

theorem length_le_jsLength (t : String) : t.length ≤ jsLength t := by
  unfold jsLength
  show t.data.length ≤ _
  induction t.data with
  | nil => simp
  | cons c cs ih =>
      simp only [List.map_cons, List.sum_cons, List.length_cons]
      split <;> omega

theorem escapeChar_length_pos (c : Char) : 1 ≤ (escapeChar c).length := by
  unfold escapeChar
  simp only
  repeat (split; · decide)
  simp

theorem length_le_escape (t : String) : t.length ≤ (escape t).length := by
  unfold escape
  show t.data.length ≤ (t.data.flatMap escapeChar).length
  induction t.data with
  | nil => simp
  | cons c cs ih =>
      have h := escapeChar_length_pos c
      simp only [List.flatMap_cons, List.length_append, List.length_cons]
      omega

/-! ### Genre normalization -/

/-- C1: the normalization step maps an absent genre to the empty array, a
value that is neither absent nor an array (`null`, a boolean, a string) to
the one-element array holding it, and an array to itself, entries and
order untouched. -/
theorem normalizeGenre_spec (g : JsVal) :
    normalizeGenre JsVal.undefined = JsVal.arr [] ∧
    (g.isArray = false ∧ g.isUndefined = false → normalizeGenre g = JsVal.arr [g]) ∧
    (g.isArray = true → normalizeGenre g = g ∧ (normalizeGenre g).entries = g.entries) ∧
    (∀ xs : List JsVal, normalizeGenre (JsVal.arr xs) = JsVal.arr xs) := by
  refine ⟨rfl, ?_, ?_, fun _ => rfl⟩
  · rintro ⟨ha, hu⟩
    simp [normalizeGenre, ha, hu]
  · intro ha
    simp [normalizeGenre, ha]

/-- Witness for C1: a single submitted genre, `null`, and two submitted
genres. -/
theorem normalizeGenre_spec_witness :
    normalizeGenre (JsVal.str "Fantasy") = JsVal.arr [JsVal.str "Fantasy"] ∧
    normalizeGenre JsVal.null = JsVal.arr [JsVal.null] ∧
    normalizeGenre (JsVal.arr [JsVal.str "Fantasy", JsVal.str "Horror"]) =
      JsVal.arr [JsVal.str "Fantasy", JsVal.str "Horror"] :=
  ⟨(normalizeGenre_spec (JsVal.str "Fantasy")).2.1 ⟨rfl, rfl⟩,
   (normalizeGenre_spec JsVal.null).2.1 ⟨rfl, rfl⟩,
   ((normalizeGenre_spec (JsVal.arr [JsVal.str "Fantasy", JsVal.str "Horror"])).2.2.1 rfl).1⟩

/-- C2, counterexample: a submitted `null` is wrapped as it is, so the
normalized array has a `null` entry; an array that holds a `null` passes
through with it. -/
theorem normalizeGenre_null_entry :
    normalizeGenre JsVal.null = JsVal.arr [JsVal.null] ∧
    (∃ x ∈ (normalizeGenre JsVal.null).entries, x.isNullish = true) ∧
    normalizeGenre (JsVal.arr [JsVal.str "g0", JsVal.null]) =
      JsVal.arr [JsVal.str "g0", JsVal.null] :=
  ⟨rfl,
   ⟨JsVal.null, by simp [normalizeGenre, JsVal.isArray, JsVal.isUndefined, JsVal.entries], rfl⟩,
   rfl⟩

/-- C2, amended: the result of the normalization step is always an array,
and it has a `null` or `undefined` entry exactly when the submitted value is
`null` or is an array that has such an entry. -/
theorem normalizeGenre_entries (g : JsVal) :
    (normalizeGenre g).isArray = true ∧
    (normalizeGenre g).entries.any JsVal.isNullish =
      (g.isNull || g.entries.any JsVal.isNullish) := by
  cases g <;> simp [normalizeGenre, JsVal.isArray, JsVal.isUndefined, JsVal.entries,
    JsVal.isNullish, JsVal.isNull]

/-! ### Genre creation -/

theorem Genre.validate_eq_none (g : Genre) (h3 : 3 ≤ jsLength g.name)
    (h100 : jsLength g.name ≤ 100) : Genre.validate g = none := by
  unfold Genre.validate
  have hne : g.name ≠ "" := by
    intro h
    rw [h] at h3
    exact absurd h3 (by decide)
  rw [if_neg hne, if_neg (by omega), if_neg (by omega)]

theorem genre_create_post_of_valid (collEq : String → String → Bool) (newId : String)
    (s : Store) (req : Request) (hvalid : 3 ≤ validatorLength (trim req.body.name)) :
    genre_create_post collEq newId s req =
      match Genre.findOneByName collEq s (escape (trim req.body.name)) with
      | some g => ⟨s, [Call.redirect g.url]⟩
      | none =>
          match Genre.save s ⟨newId, escape (trim req.body.name)⟩ with
          | Except.ok s1 => ⟨s1, [Call.redirect ("/catalog/genre/" ++ newId)]⟩
          | Except.error e => ⟨s, [Call.next e]⟩ := by
  unfold genre_create_post
  simp only [genre_name_rule, runChain_trim_isLength_escape, if_pos hvalid]
  simp [Genre.url]

theorem find?_first {α : Type} (p : α → Bool) (pre : List α) (g : α) (post : List α)
    (hpre : ∀ x ∈ pre, p x = false) (hg : p g = true) :
    (pre ++ g :: post).find? p = some g := by
  induction pre with
  | nil => simp [List.find?, hg]
  | cons a t ih =>
      have ha : p a = false := hpre a (List.mem_cons_self _ _)
      simp only [List.cons_append, List.find?, ha]
      exact ih (fun x hx => hpre x (List.mem_cons_of_mem _ hx))

theorem exists_first {α : Type} (p : α → Bool) (l : List α) (h : ∃ g ∈ l, p g = true) :
    ∃ pre g post, l = pre ++ g :: post ∧ (∀ x ∈ pre, p x = false) ∧ p g = true := by
  induction l with
  | nil =>
      obtain ⟨g, hg, _⟩ := h
      exact absurd hg (List.not_mem_nil g)
  | cons a t ih =>
      by_cases ha : p a = true
      · exact ⟨[], a, t, rfl, fun x hx => absurd hx (List.not_mem_nil x), ha⟩
      · have hrest : ∃ g ∈ t, p g = true := by
          obtain ⟨g, hg, hpg⟩ := h
          rcases List.mem_cons.mp hg with hga | hgt
          · rw [hga] at hpg
            exact absurd hpg ha
          · exact ⟨g, hgt, hpg⟩
        obtain ⟨pre, g, post, hl, hpre, hg⟩ := ih hrest
        refine ⟨a :: pre, g, post, by rw [hl]; rfl, ?_, hg⟩
        intro x hx
        rcases List.mem_cons.mp hx with hxa | hxt
        · rw [hxa]
          simpa using ha
        · exact hpre x hxt

theorem genre_create_post_first_match (collEq : String → String → Bool) (newId : String)
    (s : Store) (req : Request) (hvalid : 3 ≤ validatorLength (trim req.body.name))
    (pre : List Genre) (g : Genre) (post : List Genre) (hs : s.genres = pre ++ g :: post)
    (hpre : ∀ x ∈ pre, collEq x.name (escape (trim req.body.name)) = false)
    (hg : collEq g.name (escape (trim req.body.name)) = true) :
    genre_create_post collEq newId s req =
      ⟨s, [Call.redirect ("/catalog/genre/" ++ g._id)]⟩ := by
  have hfind : Genre.findOneByName collEq s (escape (trim req.body.name)) = some g := by
    unfold Genre.findOneByName
    rw [hs]
    exact find?_first (fun x : Genre => collEq x.name (escape (trim req.body.name)))
      pre g post hpre hg
  rw [genre_create_post_of_valid collEq newId s req hvalid, hfind]
  rfl

theorem genre_create_post_fresh (collEq : String → String → Bool) (newId : String)
    (s : Store) (req : Request) (hvalid : 3 ≤ validatorLength (trim req.body.name))
    (hno : ∀ g ∈ s.genres, collEq g.name (escape (trim req.body.name)) = false)
    (h100 : jsLength (escape (trim req.body.name)) ≤ 100) :
    genre_create_post collEq newId s req =
      ⟨{ s with genres := s.genres ++ [⟨newId, escape (trim req.body.name)⟩] },
        [Call.redirect ("/catalog/genre/" ++ newId)]⟩ := by
  have hnone : Genre.findOneByName collEq s (escape (trim req.body.name)) = none := by
    unfold Genre.findOneByName
    rw [List.find?_eq_none]
    intro g hg
    simp [hno g hg]
  have h3 : 3 ≤ jsLength (escape (trim req.body.name)) :=
    le_trans hvalid (le_trans (validatorLength_le _)
      (le_trans (length_le_escape _) (length_le_jsLength _)))
  rw [genre_create_post_of_valid collEq newId s req hvalid, hnone]
  simp [Genre.save, Genre.validate_eq_none ⟨newId, escape (trim req.body.name)⟩ h3 h100]

theorem collationEn2_query (x a b : String)
    (h : a.data.map foldCase = b.data.map foldCase) :
    collationEn2 x a = collationEn2 x b := by
  unfold collationEn2
  rw [h]

theorem genre_create_post_twice (s0 : Store) (i1 i2 p1 p2 : String)
    (h1 : ∀ g ∈ s0.genres, collationEn2 g.name "Fantasy" = false) :
    genre_create_post collationEn2 i1 s0
        { params_id := p1, body := { name := "Fantasy" } } =
      ⟨{ s0 with genres := s0.genres ++ [⟨i1, "Fantasy"⟩] },
        [Call.redirect ("/catalog/genre/" ++ i1)]⟩ ∧
    genre_create_post collationEn2 i2 { s0 with genres := s0.genres ++ [⟨i1, "Fantasy"⟩] }
        { params_id := p2, body := { name := "FANTASY" } } =
      ⟨{ s0 with genres := s0.genres ++ [⟨i1, "Fantasy"⟩] },
        [Call.redirect ("/catalog/genre/" ++ i1)]⟩ := by
  have ht1 : escape (trim "Fantasy") = "Fantasy" := by decide
  have ht2 : escape (trim "FANTASY") = "FANTASY" := by decide
  have h2 : ∀ g ∈ s0.genres, collationEn2 g.name "FANTASY" = false := by
    intro g hg
    rw [collationEn2_query g.name "FANTASY" "Fantasy" (by decide)]
    exact h1 g hg
  constructor
  · have h := genre_create_post_fresh collationEn2 i1 s0
      { params_id := p1, body := { name := "Fantasy" } }
      (show 3 ≤ validatorLength (trim "Fantasy") by decide)
      (by simpa only [ht1] using h1)
      (show jsLength (escape (trim "Fantasy")) ≤ 100 by decide)
    simpa only [ht1] using h
  · have h := genre_create_post_first_match collationEn2 i2
      { s0 with genres := s0.genres ++ [⟨i1, "Fantasy"⟩] }
      { params_id := p2, body := { name := "FANTASY" } }
      (show 3 ≤ validatorLength (trim "FANTASY") by decide)
      s0.genres ⟨i1, "Fantasy"⟩ [] rfl
      (by simpa only [ht2] using h2)
      (show collationEn2 "Fantasy" (escape (trim "FANTASY")) = true by decide)
    exact h

/-- C3, amended: for a submission that passes the rule of the controller on
the name (the trimmed name has at least 3 characters as `isLength` counts
them), with `name` the sanitized (trimmed, then escaped) name: if a stored
Genre matches `name` under the comparison of the lookup, the store is
unchanged and the redirect goes to the URL of the first stored Genre that
matches; if none matches and `name` has at most 100 UTF-16 units, exactly
one Genre `(newId, name)` is appended and the redirect goes to its URL. In
particular, under the case-insensitive comparison, on a store in which no
Genre matches "Fantasy", creating "Fantasy" and then "FANTASY" inserts one
record and the second request redirects to the URL of the first record. -/
theorem genre_create_post_spec (collEq : String → String → Bool) (newId : String)
    (s : Store) (req : Request) (hvalid : 3 ≤ validatorLength (trim req.body.name)) :
    ((∃ g ∈ s.genres, collEq g.name (escape (trim req.body.name)) = true) →
      ∃ pre g post, s.genres = pre ++ g :: post ∧
        (∀ x ∈ pre, collEq x.name (escape (trim req.body.name)) = false) ∧
        collEq g.name (escape (trim req.body.name)) = true ∧
        genre_create_post collEq newId s req =
          ⟨s, [Call.redirect ("/catalog/genre/" ++ g._id)]⟩) ∧
    ((∀ g ∈ s.genres, collEq g.name (escape (trim req.body.name)) = false) →
      jsLength (escape (trim req.body.name)) ≤ 100 →
      genre_create_post collEq newId s req =
        ⟨{ s with genres := s.genres ++ [⟨newId, escape (trim req.body.name)⟩] },
          [Call.redirect ("/catalog/genre/" ++ newId)]⟩) ∧
    (∀ (s0 : Store) (i1 i2 p1 p2 : String),
      (∀ g ∈ s0.genres, collationEn2 g.name "Fantasy" = false) →
      genre_create_post collationEn2 i1 s0
          { params_id := p1, body := { name := "Fantasy" } } =
        ⟨{ s0 with genres := s0.genres ++ [⟨i1, "Fantasy"⟩] },
          [Call.redirect ("/catalog/genre/" ++ i1)]⟩ ∧
      genre_create_post collationEn2 i2 { s0 with genres := s0.genres ++ [⟨i1, "Fantasy"⟩] }
          { params_id := p2, body := { name := "FANTASY" } } =
        ⟨{ s0 with genres := s0.genres ++ [⟨i1, "Fantasy"⟩] },
          [Call.redirect ("/catalog/genre/" ++ i1)]⟩) := by
  refine ⟨?_, fun hno h100 => genre_create_post_fresh collEq newId s req hvalid hno h100,
    fun s0 i1 i2 p1 p2 h1 => genre_create_post_twice s0 i1 i2 p1 p2 h1⟩
  intro hex
  obtain ⟨pre, g, post, hs, hpre, hg⟩ :=
    exists_first (fun x : Genre => collEq x.name (escape (trim req.body.name))) s.genres hex
  exact ⟨pre, g, post, hs, hpre, hg,
    genre_create_post_first_match collEq newId s req hvalid pre g post hs hpre hg⟩

/-- Witness for C3: on a store holding "Horror" and then "Fantasy" the
request for "FANTASY" passes the rule and is redirected to the stored
"Fantasy", the first Genre that matches; on the empty store "Fantasy" then
"FANTASY" leave one record. -/
theorem genre_create_post_spec_witness :
    3 ≤ validatorLength (trim "FANTASY") ∧
    genre_create_post collationEn2 "g9" horrorFantasyStore
        { params_id := "", body := { name := "FANTASY" } } =
      ⟨horrorFantasyStore, [Call.redirect "/catalog/genre/g0"]⟩ ∧
    genre_create_post collationEn2 "g2"
        (genre_create_post collationEn2 "g1" emptyStore
          { params_id := "", body := { name := "Fantasy" } }).store
        { params_id := "", body := { name := "FANTASY" } } =
      ⟨{ emptyStore with genres := [⟨"g1", "Fantasy"⟩] },
        [Call.redirect "/catalog/genre/g1"]⟩ := by
  have h := genre_create_post_spec collationEn2 "g9" horrorFantasyStore
    { params_id := "", body := { name := "FANTASY" } } (by decide)
  have h3 := h.2.2 emptyStore "g1" "g2" "" "" (by simp [emptyStore])
  refine ⟨by decide, by decide, ?_⟩
  rw [h3.1]
  exact h3.2

set_option maxRecDepth 8000 in
/-- C3, counterexample: three submissions on the empty store, where no
Genre matches. A name of 101 letters passes the rule of the controller and
its sanitized form has at least 3 characters, yet nothing is inserted and
no redirect is issued: `save()` rejects it against the `maxLength: 100` of
the schema. The name "&" has the sanitized form "&amp;" of 5 characters, and
the name "ab" followed by a variation selector has a sanitized form of 3
characters, yet both fail the rule (it runs on the trimmed name and does
not count the selector): the form is rendered again and nothing is
inserted. -/
theorem genre_create_post_long_name :
    (3 ≤ (escape (trim longName)).length ∧
      genre_create_post collationEn2 "g1" emptyStore
          { params_id := "", body := { name := longName } } =
        ⟨emptyStore, [Call.next (AppError.validation "Genre" "name" "maxlength")]⟩) ∧
    (3 ≤ (escape (trim "&")).length ∧
      genre_create_post collationEn2 "g1" emptyStore
          { params_id := "", body := { name := "&" } } =
        ⟨emptyStore,
          [Call.render "genre_form"
            [("title", Local.str "Create Genre"),
             ("genre", Local.genre (some ⟨"g1", "&amp;"⟩)),
             ("errors", Local.errors
                [⟨"name", "Genre name must contain at least 3 characters", "&"⟩])]]⟩) ∧
    (3 ≤ (escape (trim "ab\uFE0F")).length ∧
      genre_create_post collationEn2 "g1" emptyStore
          { params_id := "", body := { name := "ab\uFE0F" } } =
        ⟨emptyStore,
          [Call.render "genre_form"
            [("title", Local.str "Create Genre"),
             ("genre", Local.genre (some ⟨"g1", "ab\uFE0F"⟩)),
             ("errors", Local.errors
                [⟨"name", "Genre name must contain at least 3 characters",
                  "ab\uFE0F"⟩])]]⟩) := by
  refine ⟨⟨by decide, by decide⟩, ⟨by decide, by decide⟩, ⟨by decide, by decide⟩⟩

/-! ### Deleting a Book -/

theorem eraseP_eq_filter_of_nodup {α : Type} (f : α → String) (id : String) (l : List α)
    (h : (l.map f).Nodup) :
    l.eraseP (fun x => f x == id) = l.filter (fun x => f x != id) := by
  induction l with
  | nil => rfl
  | cons a t ih =>
      rw [List.map_cons, List.nodup_cons] at h
      by_cases ha : f a = id
      · have hall : ∀ x ∈ t, (f x != id) = true := by
          intro x hx
          have hne : f x ≠ id := by
            intro hxe
            exact h.1 (List.mem_map.mpr ⟨x, hx, by rw [hxe, ha]⟩)
          simp [hne]
        simp [List.eraseP_cons, ha, List.filter_eq_self.mpr hall]
      · simp [List.eraseP_cons, ha, ih h.2]

/-- C4, failing input: the route names the Book "a" (no Copy), the form
names the Book "b" (one Copy): the guard passes on "a" and the delete
removes "b", a Book that a Copy references. -/
theorem book_delete_post_deletes_other_book :
    BookInstance.findByBook libraryStore "b" = [copyOfB] ∧
    Book.findById libraryStore "b" = some bookB ∧
    book_delete_post libraryStore { params_id := "a", body := { bookid := "b" } } =
      ⟨{ libraryStore with books := [bookA] }, [Call.redirect "/catalog/books"]⟩ := by
  decide

/-- C5: with the same identifier `id` on the route and in the form, if no
Copy references `id` the Book `id` is deleted (with unique identifiers the
Books left are exactly those with another identifier, and `id` is no longer
found) and the redirect goes to "/catalog/books"; if a Copy references `id`
the store is unchanged and the "book_delete" view is rendered with
`book_instances` the list of the Copies referencing `id`. -/
theorem book_delete_post_spec (s : Store) (id : String) (b : Body) :
    ((∀ c ∈ s.bookinstances, c.book ≠ id) →
      book_delete_post s { params_id := id, body := { b with bookid := id } } =
        ⟨Book.findByIdAndDelete s id, [Call.redirect "/catalog/books"]⟩ ∧
      ((s.books.map (fun x => x._id)).Nodup →
        Book.findByIdAndDelete s id =
          { s with books := s.books.filter (fun x => x._id != id) } ∧
        Book.findById (Book.findByIdAndDelete s id) id = none)) ∧
    ((∃ c ∈ s.bookinstances, c.book = id) →
      ∃ locals,
        book_delete_post s { params_id := id, body := { b with bookid := id } } =
          ⟨s, [Call.render "book_delete" locals]⟩ ∧
        lookupLocal "book_instances" locals =
          some (Local.bookinstances (s.bookinstances.filter (fun c => c.book == id)))) := by
  constructor
  · intro hno
    have hempty : BookInstance.findByBook s id = [] := by
      unfold BookInstance.findByBook
      rw [List.filter_eq_nil_iff]
      intro c hc
      simp [hno c hc]
    refine ⟨by simp [book_delete_post, hempty], ?_⟩
    intro huniq
    have herase := eraseP_eq_filter_of_nodup (fun x : Book => x._id) id s.books huniq
    refine ⟨by simp only [Book.findByIdAndDelete, herase], ?_⟩
    simp only [Book.findByIdAndDelete, herase, Book.findById]
    rw [List.find?_eq_none]
    intro x hx
    have := (List.mem_filter.mp hx).2
    simpa using this
  · rintro ⟨c, hc, hcb⟩
    have hpos : (BookInstance.findByBook s id).length > 0 := by
      apply List.length_pos_of_mem (a := c)
      unfold BookInstance.findByBook
      exact List.mem_filter.mpr ⟨hc, by simp [hcb]⟩
    refine ⟨[("title", Local.str "Delete Book"), ("book", Local.book (Book.findById s id)),
      ("book_instances", Local.bookinstances (BookInstance.findByBook s id))],
      by simp only [book_delete_post, if_pos hpos], ?_⟩
    simp [lookupLocal, BookInstance.findByBook]

/-- Witness for C5: in the sample store the Book "a" has no Copy and is
deleted, the Book "b" has one and is kept. -/
theorem book_delete_post_spec_witness :
    (∀ c ∈ libraryStore.bookinstances, c.book ≠ "a") ∧
    book_delete_post libraryStore { params_id := "a", body := { bookid := "a" } } =
      ⟨{ libraryStore with books := [bookB] }, [Call.redirect "/catalog/books"]⟩ ∧
    (∃ c ∈ libraryStore.bookinstances, c.book = "b") := by
  have h := book_delete_post_spec libraryStore "a" {}
  have hno : ∀ c ∈ libraryStore.bookinstances, c.book ≠ "a" := by decide
  refine ⟨hno, ?_, by decide⟩
  rw [(h.1 hno).1]
  decide

/-! ### Deleting a Genre -/

/-- C6: when the Genre `req.params.id` is stored and a Book references it,
`genre_delete_post` leaves the store unchanged and renders "genre_delete"
with the title "Delete Genre", the Genre and the referencing Books (in the
"title summary" projection): the very outcome of `genre_delete_get` for
the same request and store. -/
theorem genre_delete_post_refused (s : Store) (req : Request) (g : Genre)
    (hg : Genre.findById s req.params_id = some g)
    (hb : ∃ b ∈ s.books, req.params_id ∈ b.genre) :
    genre_delete_post s req =
      ⟨s, [Call.render "genre_delete"
            [("title", Local.str "Delete Genre"), ("genre", Local.genre (some g)),
             ("genre_books", Local.bookSummaries
                ((s.books.filter (fun b => b.genre.contains req.params_id)).map
                  Book.summaryOf))]]⟩ ∧
    genre_delete_post s req = genre_delete_get s req := by
  obtain ⟨b, hbs, hbg⟩ := hb
  have hpos : (Book.findByGenre s req.params_id).length > 0 := by
    apply List.length_pos_of_mem (a := Book.summaryOf b)
    unfold Book.findByGenre
    exact List.mem_map.mpr ⟨b, List.mem_filter.mpr ⟨hbs, by simpa using hbg⟩, rfl⟩
  constructor
  · simp only [genre_delete_post, if_pos hpos, hg]
    rfl
  · simp only [genre_delete_post, genre_delete_get, if_pos hpos, hg]
    simp

/-- Witness for C6: the Genre "g0" of the sample store is referenced by
the Book "a". -/
theorem genre_delete_post_refused_witness :
    Genre.findById libraryStore "g0" = some ⟨"g0", "Fantasy"⟩ ∧
    (∃ b ∈ libraryStore.books, "g0" ∈ b.genre) ∧
    genre_delete_post libraryStore { params_id := "g0", body := { genreid := "g0" } } =
      genre_delete_get libraryStore { params_id := "g0", body := { genreid := "g0" } } :=
  ⟨by decide, ⟨bookA, by decide, by decide⟩,
    (genre_delete_post_refused libraryStore { params_id := "g0", body := { genreid := "g0" } }
      ⟨"g0", "Fantasy"⟩ (by decide) ⟨bookA, by decide, by decide⟩).2⟩

/-! ### Missing targets -/

/-- C7, failing input: on the empty store, for the identifier "x", the GET
handlers of the three delete flows issue the redirect and then render the
confirmation view with a null entity, and `bookinstance_delete_post` issues
the redirect twice. -/
theorem delete_handlers_missing_target :
    (book_delete_get emptyStore { params_id := "x" }).calls =
      [Call.redirect "/catalog/books",
       Call.render "book_delete"
        [("title", Local.str "Delete Book"), ("book", Local.book none),
         ("book_instances", Local.bookinstances [])]] ∧
    (genre_delete_get emptyStore { params_id := "x" }).calls =
      [Call.redirect "/catalog/genres",
       Call.render "genre_delete"
        [("title", Local.str "Delete Genre"), ("genre", Local.genre none),
         ("genre_books", Local.bookSummaries [])]] ∧
    (bookinstance_delete_get emptyStore { params_id := "x" }).calls =
      [Call.redirect "/catalog/bookinstances",
       Call.render "bookinstance_delete"
        [("title", Local.str "Delete BookInstance"),
         ("bookInstance", Local.bookinstancePopulated none)]] ∧
    (bookinstance_delete_post emptyStore
        { params_id := "x", body := { bookinstanceid := "x" } }).calls =
      [Call.redirect "/catalog/bookinstances", Call.redirect "/catalog/bookinstances"] ∧
    (book_delete_post orphanStore { params_id := "x", body := { bookid := "x" } }).calls =
      [Call.render "book_delete"
        [("title", Local.str "Delete Book"), ("book", Local.book none),
         ("book_instances", Local.bookinstances orphanStore.bookinstances)]] := by
  decide

/-- C8, counterexample: "x" denotes no stored Book, yet `book_detail` does
not forward the error of status 404: "x" is no ObjectId, both queries
reject with a CastError when they are executed, and that error, which has
no status, is what `next` receives. -/
theorem book_detail_bad_identifier :
    Book.findById orphanStore "x" = none ∧
    book_detail orphanStore { params_id := "x" } =
      ⟨orphanStore, [Call.next (AppError.cast "ObjectId" "x")]⟩ ∧
    book_detail orphanStore { params_id := "x" } ≠
      ⟨orphanStore, [Call.next (AppError.http 404 "Book not found")]⟩ := by
  decide

/-- C8, amended: when `req.params.id` denotes no stored Book, `book_detail`
leaves the store as it is, renders nothing and makes exactly one call: for
an identifier that is a well-formed ObjectId, `next` with the error of
status 404 and message "Book not found", whatever the lookup of the Copies
returns; for an identifier that is no ObjectId, `next` with the CastError
of the queries. -/
theorem book_detail_not_found (s : Store) (req : Request)
    (h : Book.findById s req.params_id = none) :
    (isObjectId req.params_id = true →
      book_detail s req = ⟨s, [Call.next (AppError.http 404 "Book not found")]⟩) ∧
    (isObjectId req.params_id = false →
      book_detail s req = ⟨s, [Call.next (AppError.cast "ObjectId" req.params_id)]⟩) ∧
    (book_detail s req).calls.any Call.isRender = false := by
  have h1 : isObjectId req.params_id = true →
      book_detail s req = ⟨s, [Call.next (AppError.http 404 "Book not found")]⟩ := by
    intro hid
    simp [book_detail, Book.findByIdExec, BookInstance.findByBookExec, castQueryId, hid, h]
  have h2 : isObjectId req.params_id = false →
      book_detail s req = ⟨s, [Call.next (AppError.cast "ObjectId" req.params_id)]⟩ := by
    intro hid
    simp [book_detail, Book.findByIdExec, BookInstance.findByBookExec, castQueryId, hid]
  refine ⟨h1, h2, ?_⟩
  cases hid : isObjectId req.params_id
  · rw [h2 hid]
    rfl
  · rw [h1 hid]
    rfl

/-- Witness for C8: a well-formed identifier that no stored Book has,
although a Copy references it. -/
theorem book_detail_not_found_witness :
    Book.findById danglingStore "65f0a1b2c3d4e5f6a7b8c9d0" = none ∧
    isObjectId "65f0a1b2c3d4e5f6a7b8c9d0" = true ∧
    BookInstance.findByBook danglingStore "65f0a1b2c3d4e5f6a7b8c9d0" ≠ [] ∧
    book_detail danglingStore { params_id := "65f0a1b2c3d4e5f6a7b8c9d0" } =
      ⟨danglingStore, [Call.next (AppError.http 404 "Book not found")]⟩ :=
  ⟨by decide, by decide, by decide,
    (book_detail_not_found danglingStore { params_id := "65f0a1b2c3d4e5f6a7b8c9d0" }
      (by decide)).1 (by decide)⟩

/-! ### Validation rules of the Book forms -/

theorem genreItemErrors_eq_nil (g : JsVal) : genreItemErrors g = [] := by
  unfold genreItemErrors
  simp [runChain_escape]

theorem one_le_length_iff (t : String) : 1 ≤ t.length ↔ t ≠ "" := by
  cases t with
  | mk l =>
      cases l with
      | nil => exact ⟨fun h => absurd h (by decide), fun h => absurd rfl h⟩
      | cons c cs =>
          refine ⟨fun _ h => ?_, fun _ => ?_⟩
          · exact absurd (congrArg String.length h) (by simp [String.length])
          · simp [String.length]

theorem nonEmpty_rule_errors (field msg v : String) :
    (runChain field msg [ChainStep.trim, ChainStep.isLength 1, ChainStep.escape] v).2 =
      if trim v = "" then [⟨field, msg, ""⟩] else [] := by
  rw [runChain_trim_isLength_escape]
  by_cases h : trim v = ""
  · have h0 : ¬ (1 ≤ validatorLength (trim v)) := by
      rw [h]
      decide
    rw [if_neg h0, if_pos h, h]
  · rw [if_pos ((one_le_validatorLength_iff _).mpr h), if_neg h]

theorem book_update_post_errors_eq (b : Body) :
    book_update_post_errors b =
      (if trim b.title = "" then [⟨"title", "Title must not be empty.", ""⟩] else []) ++
      ((if trim b.author = "" then [⟨"author", "Author must not be empty.", ""⟩] else []) ++
      ((if trim b.summary = "" then [⟨"summary", "Summary must not be empty.", ""⟩] else []) ++
      (if trim b.isbn = "" then [⟨"isbn", "ISBN must not be empty.", ""⟩] else []))) := by
  simp [book_update_post_errors, book_update_post_rules, fieldErrors, genreItemErrors_eq_nil,
    nonEmpty_rule_errors, Body.textField]

theorem book_create_post_errors_eq (b : Body) :
    book_create_post_errors b =
      (if trim b.title = "" then [⟨"title", "Title must not be empty.", ""⟩] else []) ++
      ((if trim b.author = "" then [⟨"author", "Author must not be empty.", ""⟩] else []) ++
      ((if trim b.summary = "" then [⟨"summary", "Summary must not be empty.", ""⟩] else []) ++
      (if trim b.isbn = "" then [⟨"isbn", "ISBN must not be empty", ""⟩] else []))) := by
  simp [book_create_post_errors, book_create_post_rules, fieldErrors, genreItemErrors_eq_nil,
    nonEmpty_rule_errors, Body.textField]

/-- C9: when the title of a Book update submission is empty after `trim`
(whitespace only included), the errors of the Book rules hold exactly one
error for the field `title`, with the message "Title must not be empty.". -/
theorem book_update_post_title_error (b : Body) (h : trim b.title = "") :
    (book_update_post_errors b).filter (fun e => e.field == "title") =
      [⟨"title", "Title must not be empty.", ""⟩] := by
  rw [book_update_post_errors_eq, if_pos h]
  by_cases ha : trim b.author = "" <;> by_cases hs : trim b.summary = "" <;>
    by_cases hi : trim b.isbn = "" <;> simp [ha, hs, hi]

/-- Witness for C9: a title of blanks and a tab. -/
theorem book_update_post_title_error_witness :
    trim " \t " = "" ∧
    (book_update_post_errors { title := " \t ", author := "au1", summary := "S", isbn := "1" }).filter
        (fun e => e.field == "title") =
      [⟨"title", "Title must not be empty.", ""⟩] :=
  ⟨by decide,
    book_update_post_title_error { title := " \t ", author := "au1", summary := "S", isbn := "1" }
      (by decide)⟩

/-- C10: the Book rules do not short-circuit. For every submission the
error list of `book_update_post` (and of `book_create_post`, whose ISBN
message has no full stop) is the concatenation, in the declared order
title, author, summary, isbn, of one error for each of these fields that
is empty after `trim`, and holds nothing else; with all four empty it has
four errors, and it is empty exactly when all four are non-empty after
`trim`. -/
theorem book_rules_accumulate (b : Body) :
    book_update_post_errors b =
      (if trim b.title = "" then [⟨"title", "Title must not be empty.", ""⟩] else []) ++
      ((if trim b.author = "" then [⟨"author", "Author must not be empty.", ""⟩] else []) ++
      ((if trim b.summary = "" then [⟨"summary", "Summary must not be empty.", ""⟩] else []) ++
      (if trim b.isbn = "" then [⟨"isbn", "ISBN must not be empty.", ""⟩] else []))) ∧
    book_create_post_errors b =
      (if trim b.title = "" then [⟨"title", "Title must not be empty.", ""⟩] else []) ++
      ((if trim b.author = "" then [⟨"author", "Author must not be empty.", ""⟩] else []) ++
      ((if trim b.summary = "" then [⟨"summary", "Summary must not be empty.", ""⟩] else []) ++
      (if trim b.isbn = "" then [⟨"isbn", "ISBN must not be empty", ""⟩] else []))) ∧
    (trim b.title = "" ∧ trim b.author = "" ∧ trim b.summary = "" ∧ trim b.isbn = "" →
      (book_update_post_errors b).map (fun e => e.field) =
        ["title", "author", "summary", "isbn"] ∧
      (book_create_post_errors b).map (fun e => e.field) =
        ["title", "author", "summary", "isbn"]) ∧
    (book_update_post_errors b = [] ↔
      trim b.title ≠ "" ∧ trim b.author ≠ "" ∧ trim b.summary ≠ "" ∧ trim b.isbn ≠ "") ∧
    (book_create_post_errors b = [] ↔
      trim b.title ≠ "" ∧ trim b.author ≠ "" ∧ trim b.summary ≠ "" ∧ trim b.isbn ≠ "") := by
  refine ⟨book_update_post_errors_eq b, book_create_post_errors_eq b, ?_, ?_, ?_⟩
  · rintro ⟨ht, ha, hs, hi⟩
    rw [book_update_post_errors_eq, book_create_post_errors_eq]
    simp [ht, ha, hs, hi]
  · rw [book_update_post_errors_eq]
    by_cases ht : trim b.title = "" <;> by_cases ha : trim b.author = "" <;>
      by_cases hs : trim b.summary = "" <;> by_cases hi : trim b.isbn = "" <;>
      simp [ht, ha, hs, hi]
  · rw [book_create_post_errors_eq]
    by_cases ht : trim b.title = "" <;> by_cases ha : trim b.author = "" <;>
      by_cases hs : trim b.summary = "" <;> by_cases hi : trim b.isbn = "" <;>
      simp [ht, ha, hs, hi]

/-- Witness for C10: a submission with four blank inputs gets the four
errors in the declared order. -/
theorem book_rules_accumulate_witness :
    book_update_post_errors { title := " ", author := "", summary := "  ", isbn := " " } =
      [⟨"title", "Title must not be empty.", ""⟩, ⟨"author", "Author must not be empty.", ""⟩,
       ⟨"summary", "Summary must not be empty.", ""⟩, ⟨"isbn", "ISBN must not be empty.", ""⟩] := by
  rw [(book_rules_accumulate { title := " ", author := "", summary := "  ", isbn := " " }).1]
  decide

/-! ### Updates that bypass the schema -/

/-- C12, failing input: the Copy "c1" is stored with status "Available";
an update submission with the status "Bogus" passes the chains (none
checks the status) and `findByIdAndUpdate` writes it, although "Bogus" is
not in the enumeration. The same submission sent to
`bookinstance_create_post` is rejected by `save()` and nothing is written. -/
theorem bookinstance_update_post_bogus_status :
    BookInstance.statusEnum.contains "Bogus" = false ∧
    (∀ (dates : DateLib) (now : Int),
      bookinstance_update_post dates now libraryStore
          { params_id := "c1",
            body := { book := "b", imprint := "Print 1", status := "Bogus" } } =
        ⟨{ libraryStore with
            bookinstances := [⟨"c1", "b", "Print 1", "Bogus", some now⟩] },
          [Call.redirect "/catalog/bookinstance/c1"]⟩) ∧
    (∀ (dates : DateLib) (now : Int),
      bookinstance_create_post dates now "c2" libraryStore
          { params_id := "",
            body := { book := "b", imprint := "Print 1", status := "Bogus" } } =
        ⟨libraryStore,
          [Call.next (AppError.validations "BookInstance" [("status", "enum")])]⟩) :=
  ⟨by decide, fun _ _ => rfl, fun _ _ => rfl⟩

set_option maxRecDepth 8000 in
/-- C13, failing input: the Genre "g0" is stored; an update submission
whose name has 101 letters passes the rule of the controller (at least 3
characters) and `findByIdAndUpdate` writes it without running the
`maxLength: 100` validator of the schema. -/
theorem genre_update_post_long_name :
    longName.length = 101 ∧
    genre_update_post fantasyStore { params_id := "g0", body := { name := longName } } =
      ⟨{ fantasyStore with genres := [⟨"g0", longName⟩] },
        [Call.redirect "/catalog/genre/g0"]⟩ :=
  ⟨by decide, by decide⟩

/-- C14, failing input: the names "Fantasy" and "Horror" are unique under
the comparison; the update of "g1" to the name "FANTASY" is written without
any lookup, and the store then holds two Genres whose names compare equal. -/
theorem genre_update_post_duplicate_name :
    namesUnique collationEn2 twoGenresStore.genres = true ∧
    genre_update_post twoGenresStore { params_id := "g1", body := { name := "FANTASY" } } =
      ⟨{ twoGenresStore with genres := [⟨"g0", "Fantasy"⟩, ⟨"g1", "FANTASY"⟩] },
        [Call.redirect "/catalog/genre/g1"]⟩ ∧
    namesUnique collationEn2
      (genre_update_post twoGenresStore
        { params_id := "g1", body := { name := "FANTASY" } }).store.genres = false := by
  decide

/-! ### Forms of a Copy -/

/-- C16, failing input: an update submission with an empty imprint fails
validation; the view-model `bookinstance_update_post` passes to
"bookinstance_form" has no `status_list`, while `bookinstance_create_post`
passes the enumeration for the same body. -/
theorem bookinstance_update_post_no_status_list :
    (∀ (dates : DateLib) (now : Int),
      bookinstance_update_post dates now libraryStore
          { params_id := "c1", body := { book := "b", imprint := "", status := "Available" } } =
        ⟨libraryStore,
          [Call.render "bookinstance_form"
            [("title", Local.str "Update BookInstance"),
             ("bookinstance", Local.bookinstanceDoc ⟨"c1", some "b", "", "Available", some now⟩),
             ("book_list", Local.bookTitles [⟨"a", "Dune"⟩, ⟨"b", "Emma"⟩]),
             ("selected_book", Local.str "b"),
             ("errors", Local.errors [⟨"imprint", "Imprint must be specified", ""⟩])]]⟩) ∧
    (∀ (dates : DateLib) (now : Int),
      bookinstance_create_post dates now "c2" libraryStore
          { params_id := "", body := { book := "b", imprint := "", status := "Available" } } =
        ⟨libraryStore,
          [Call.render "bookinstance_form"
            [("title", Local.str "Create BookInstance"),
             ("book_list", Local.bookTitles [⟨"a", "Dune"⟩, ⟨"b", "Emma"⟩]),
             ("selected_book", Local.str "b"),
             ("errors", Local.errors [⟨"imprint", "Imprint must be specified", ""⟩]),
             ("bookinstance", Local.bookinstanceDoc ⟨"c2", some "b", "", "Available", some now⟩),
             ("status_list",
               Local.strs ["Available", "Maintenance", "Loaned", "Reserved"])]]⟩) :=
  ⟨fun _ _ => rfl, fun _ _ => rfl⟩

/-- C17, failing input: for the stored Copy "c1" (and for every request)
`bookinstance_update_get` renders nothing: building the view-model reads
the undeclared `errors`, and the ReferenceError goes to `next`. -/
theorem bookinstance_update_get_never_renders :
    BookInstance.findById libraryStore "c1" = some copyOfB ∧
    bookinstance_update_get libraryStore { params_id := "c1" } =
      ⟨libraryStore, [Call.next (AppError.thrown "ReferenceError" "errors")]⟩ ∧
    (∀ (s : Store) (req : Request),
      (bookinstance_update_get s req).calls.any Call.isRender = false) := by
  refine ⟨by decide, by decide, ?_⟩
  intro s req
  unfold bookinstance_update_get
  cases h : (BookInstance.findById s req.params_id).map (BookInstance.populate s) with
  | none => rfl
  | some found =>
      cases hb : found.book with
      | none => simp [hb, Call.isRender]
      | some b => simp [hb, Call.isRender]

/-- C18, failing input: a create submission with an empty book field fails
the rule of the field; in the redisplay branch `bookInstance.book` is
undefined, `bookInstance.book._id` throws, and the handler hands the
TypeError to `next` without rendering the form. The update handler does
the same. -/
theorem bookinstance_post_empty_book_throws :
    (∀ (dates : DateLib),
      bookinstance_errors dates "invalid date"
          { book := "", imprint := "Print 2", status := "Available" } =
        [⟨"book", "Book must be specified", ""⟩]) ∧
    (∀ (dates : DateLib) (now : Int),
      bookinstance_create_post dates now "c2" libraryStore
          { params_id := "",
            body := { book := "", imprint := "Print 2", status := "Available" } } =
        ⟨libraryStore, [Call.next (AppError.thrown "TypeError" "bookInstance.book._id")]⟩) ∧
    (∀ (dates : DateLib) (now : Int),
      bookinstance_update_post dates now libraryStore
          { params_id := "c1",
            body := { book := "", imprint := "Print 2", status := "Available" } } =
        ⟨libraryStore, [Call.next (AppError.thrown "TypeError" "bookInstance.book._id")]⟩) :=
  ⟨fun _ => rfl, fun _ _ => rfl, fun _ _ => rfl⟩

/-! ### Canonical URLs -/

theorem append_left_cancel (p a b : String) (h : p ++ a = p ++ b) : a = b := by
  have hd : (p ++ a).data = (p ++ b).data := by rw [h]
  rw [String.data_append, String.data_append] at hd
  exact String.ext (List.append_cancel_left hd)

/-- C19: the url of a Genre is "/catalog/genre/" followed by its identifier
and the url of a Copy is "/catalog/bookinstance/" followed by its
identifier; the url depends on no other field, and two Genres (two Copies)
have the same url only if they have the same identifier. -/
theorem url_spec :
    (∀ g : Genre, g.url = "/catalog/genre/" ++ g._id) ∧
    (∀ c : BookInstance, c.url = "/catalog/bookinstance/" ++ c._id) ∧
    (∀ (id n1 n2 : String), (Genre.mk id n1).url = (Genre.mk id n2).url) ∧
    (∀ (id b1 i1 s1 b2 i2 s2 : String) (d1 d2 : Option Int),
      (BookInstance.mk id b1 i1 s1 d1).url = (BookInstance.mk id b2 i2 s2 d2).url) ∧
    (∀ g1 g2 : Genre, g1.url = g2.url ↔ g1._id = g2._id) ∧
    (∀ c1 c2 : BookInstance, c1.url = c2.url ↔ c1._id = c2._id) := by
  refine ⟨fun _ => rfl, fun _ => rfl, fun _ _ _ => rfl, fun _ _ _ _ _ _ _ _ _ => rfl, ?_, ?_⟩
  · intro g1 g2
    exact ⟨fun h => append_left_cancel _ _ _ h, fun h => by simp [Genre.url, h]⟩
  · intro c1 c2
    exact ⟨fun h => append_left_cancel _ _ _ h, fun h => by simp [BookInstance.url, h]⟩

/-- Witness for C19: the urls of the sample Genre and of the sample Copy. -/
theorem url_spec_witness :
    (Genre.mk "g0" "Fantasy").url = "/catalog/genre/g0" ∧
    copyOfB.url = "/catalog/bookinstance/c1" :=
  ⟨(url_spec.1 ⟨"g0", "Fantasy"⟩).trans (by decide), (url_spec.2.1 copyOfB).trans (by decide)⟩

/-! ### Diacritics in the uniqueness lookup -/

theorem genres_no_match_append (q : String) (l : List Genre) (g : Genre)
    (hl : ∀ x ∈ l, collationEn2 x.name q = false) (hg : collationEn2 g.name q = false) :
    ∀ x ∈ l ++ [g], collationEn2 x.name q = false := by
  intro x hx
  rcases List.mem_append.mp hx with h | h
  · exact hl x h
  · rw [List.mem_singleton] at h
    rw [h]
    exact hg

/-- C20: the lookup compares under the collation of strength 2, which tells
"café" from "cafe" and ignores case. On a store in which no Genre matches
"café" or "cafe", `genre_create_post` for "café" inserts a record and
redirects to its URL, and `genre_create_post` for "cafe" then inserts a
second record and redirects to the URL of that second record; after that
a request for "CAFE" inserts nothing and is redirected to the record
"cafe", and a request for "CAFÉ" inserts nothing and is redirected to the
record "café". -/
theorem genre_create_post_diacritic (s0 : Store) (i1 i2 i3 p1 p2 p3 : String)
    (h1 : ∀ g ∈ s0.genres, collationEn2 g.name "café" = false)
    (h2 : ∀ g ∈ s0.genres, collationEn2 g.name "cafe" = false) :
    collationEn2 "café" "cafe" = false ∧ collationEn2 "cafe" "café" = false ∧
    collationEn2 "cafe" "CAFE" = true ∧ collationEn2 "café" "CAFÉ" = true ∧
    genre_create_post collationEn2 i1 s0 { params_id := p1, body := { name := "café" } } =
      ⟨{ s0 with genres := s0.genres ++ [⟨i1, "café"⟩] },
        [Call.redirect ("/catalog/genre/" ++ i1)]⟩ ∧
    genre_create_post collationEn2 i2 { s0 with genres := s0.genres ++ [⟨i1, "café"⟩] }
        { params_id := p2, body := { name := "cafe" } } =
      ⟨{ s0 with genres := s0.genres ++ [⟨i1, "café"⟩, ⟨i2, "cafe"⟩] },
        [Call.redirect ("/catalog/genre/" ++ i2)]⟩ ∧
    genre_create_post collationEn2 i3
        { s0 with genres := s0.genres ++ [⟨i1, "café"⟩, ⟨i2, "cafe"⟩] }
        { params_id := p3, body := { name := "CAFE" } } =
      ⟨{ s0 with genres := s0.genres ++ [⟨i1, "café"⟩, ⟨i2, "cafe"⟩] },
        [Call.redirect ("/catalog/genre/" ++ i2)]⟩ ∧
    genre_create_post collationEn2 i3
        { s0 with genres := s0.genres ++ [⟨i1, "café"⟩, ⟨i2, "cafe"⟩] }
        { params_id := p3, body := { name := "CAFÉ" } } =
      ⟨{ s0 with genres := s0.genres ++ [⟨i1, "café"⟩, ⟨i2, "cafe"⟩] },
        [Call.redirect ("/catalog/genre/" ++ i1)]⟩ := by
  have ht1 : escape (trim "café") = "café" := by decide
  have ht2 : escape (trim "cafe") = "cafe" := by decide
  have ht3 : escape (trim "CAFE") = "CAFE" := by decide
  have ht4 : escape (trim "CAFÉ") = "CAFÉ" := by decide
  have h3 : ∀ g ∈ s0.genres, collationEn2 g.name "CAFE" = false := by
    intro g hg
    rw [collationEn2_query g.name "CAFE" "cafe" (by decide)]
    exact h2 g hg
  have h4 : ∀ g ∈ s0.genres, collationEn2 g.name "CAFÉ" = false := by
    intro g hg
    rw [collationEn2_query g.name "CAFÉ" "café" (by decide)]
    exact h1 g hg
  have hd2 : collationEn2 "café" "cafe" = false := by decide
  have hd3 : collationEn2 "café" "CAFE" = false := by decide
  have hno2 := genres_no_match_append "cafe" s0.genres ⟨i1, "café"⟩ h2 hd2
  have hno3 := genres_no_match_append "CAFE" s0.genres ⟨i1, "café"⟩ h3 hd3
  refine ⟨by decide, by decide, by decide, by decide, ?_, ?_, ?_, ?_⟩
  · have h := genre_create_post_fresh collationEn2 i1 s0
      { params_id := p1, body := { name := "café" } }
      (show 3 ≤ validatorLength (trim "café") by decide)
      (by simpa only [ht1] using h1)
      (show jsLength (escape (trim "café")) ≤ 100 by decide)
    simpa only [ht1] using h
  · have h := genre_create_post_fresh collationEn2 i2
      { s0 with genres := s0.genres ++ [⟨i1, "café"⟩] }
      { params_id := p2, body := { name := "cafe" } }
      (show 3 ≤ validatorLength (trim "cafe") by decide)
      (by simpa only [ht2] using hno2)
      (show jsLength (escape (trim "cafe")) ≤ 100 by decide)
    simpa only [ht2, List.append_assoc, List.singleton_append] using h
  · exact genre_create_post_first_match collationEn2 i3
      { s0 with genres := s0.genres ++ [⟨i1, "café"⟩, ⟨i2, "cafe"⟩] }
      { params_id := p3, body := { name := "CAFE" } }
      (show 3 ≤ validatorLength (trim "CAFE") by decide)
      (s0.genres ++ [⟨i1, "café"⟩]) ⟨i2, "cafe"⟩ []
      (by simp)
      (by simpa only [ht3] using hno3)
      (show collationEn2 "cafe" (escape (trim "CAFE")) = true by decide)
  · exact genre_create_post_first_match collationEn2 i3
      { s0 with genres := s0.genres ++ [⟨i1, "café"⟩, ⟨i2, "cafe"⟩] }
      { params_id := p3, body := { name := "CAFÉ" } }
      (show 3 ≤ validatorLength (trim "CAFÉ") by decide)
      s0.genres ⟨i1, "café"⟩ [⟨i2, "cafe"⟩]
      rfl
      (by simpa only [ht4] using h4)
      (show collationEn2 "café" (escape (trim "CAFÉ")) = true by decide)

/-- Witness for C20: from the empty store the requests for "café" and
"cafe" leave two records, each redirected to its own URL. -/
theorem genre_create_post_diacritic_witness :
    genre_create_post collationEn2 "g1" emptyStore
        { params_id := "", body := { name := "café" } } =
      ⟨{ emptyStore with genres := [⟨"g1", "café"⟩] },
        [Call.redirect "/catalog/genre/g1"]⟩ ∧
    genre_create_post collationEn2 "g2" { emptyStore with genres := [⟨"g1", "café"⟩] }
        { params_id := "", body := { name := "cafe" } } =
      ⟨{ emptyStore with genres := [⟨"g1", "café"⟩, ⟨"g2", "cafe"⟩] },
        [Call.redirect "/catalog/genre/g2"]⟩ ∧
    genre_create_post collationEn2 "g3"
        { emptyStore with genres := [⟨"g1", "café"⟩, ⟨"g2", "cafe"⟩] }
        { params_id := "", body := { name := "CAFE" } } =
      ⟨{ emptyStore with genres := [⟨"g1", "café"⟩, ⟨"g2", "cafe"⟩] },
        [Call.redirect "/catalog/genre/g2"]⟩ := by
  have h := genre_create_post_diacritic emptyStore "g1" "g2" "g3" "" "" ""
    (by simp [emptyStore]) (by simp [emptyStore])
  exact ⟨h.2.2.2.2.1, h.2.2.2.2.2.1, h.2.2.2.2.2.2.1⟩

/-! ### Redisplay of the Book form -/

theorem escapeChar_cases (c : Char) :
    escapeChar c = [c] ∨ ∃ r, escapeChar c = Char.ofNat 38 :: r ∧ 3 ≤ r.length := by
  unfold escapeChar
  simp only
  split
  · right; exact ⟨_, rfl, by decide⟩
  split
  · right; exact ⟨_, rfl, by decide⟩
  split
  · right; exact ⟨_, rfl, by decide⟩
  split
  · right; exact ⟨_, rfl, by decide⟩
  split
  · right; exact ⟨_, rfl, by decide⟩
  split
  · right; exact ⟨_, rfl, by decide⟩
  split
  · right; exact ⟨_, rfl, by decide⟩
  split
  · right; exact ⟨_, rfl, by decide⟩
  left; rfl

theorem escapeChar_amp : escapeChar (Char.ofNat 38) ≠ [Char.ofNat 38] := by decide

theorem length_le_flatMap_escapeChar (l : List Char) : l.length ≤ (l.flatMap escapeChar).length := by
  induction l with
  | nil => simp
  | cons c cs ih =>
      rcases escapeChar_cases c with h | ⟨r, h, hr⟩ <;>
        simp only [List.flatMap_cons, List.length_append, List.length_cons, h] <;> omega

theorem plain_of_flatMap_eq_self (l : List Char) (h : l.flatMap escapeChar = l) :
    ∀ c ∈ l, escapeChar c = [c] := by
  induction l with
  | nil => simp
  | cons c cs ih =>
      rcases escapeChar_cases c with hc | ⟨r, hc, hr⟩
      · rw [List.flatMap_cons, hc] at h
        have htail : cs.flatMap escapeChar = cs := by simpa using h
        intro x hx
        rcases List.mem_cons.mp hx with hx | hx
        · rw [hx]; exact hc
        · exact ih htail x hx
      · exfalso
        have hlen := congrArg List.length h
        have hle := length_le_flatMap_escapeChar cs
        simp only [List.flatMap_cons, List.length_append, List.length_cons, hc] at hlen
        omega

theorem eq_of_flatMap_eq_plain (t u : List Char) (h : t.flatMap escapeChar = u)
    (hu : ∀ c ∈ u, escapeChar c = [c]) : t = u := by
  induction t generalizing u with
  | nil => simpa using h
  | cons c cs ih =>
      rcases escapeChar_cases c with hc | ⟨r, hc, hr⟩
      · rw [List.flatMap_cons, hc] at h
        cases u with
        | nil => simp at h
        | cons d ds =>
            simp only [List.singleton_append, List.cons.injEq] at h
            rw [h.1, ih ds h.2 (fun x hx => hu x (List.mem_cons_of_mem _ hx))]
      · exfalso
        rw [List.flatMap_cons, hc] at h
        have hmem : Char.ofNat 38 ∈ u := by rw [← h]; simp
        exact escapeChar_amp (hu _ hmem)

theorem escape_eq_of_fixed (t u : String) (h : escape t = u) (hu : escape u = u) : t = u := by
  have hu2 : u.data.flatMap escapeChar = u.data := congrArg String.data hu
  have h2 : t.data.flatMap escapeChar = u.data := congrArg String.data h
  exact String.ext (eq_of_flatMap_eq_plain _ _ h2 (plain_of_flatMap_eq_self _ hu2))

theorem fieldValue_create (b : Body) :
    fieldValue b book_create_post_rules "title" = escape (trim b.title) ∧
    fieldValue b book_create_post_rules "author" = escape (trim b.author) ∧
    fieldValue b book_create_post_rules "summary" = escape (trim b.summary) ∧
    fieldValue b book_create_post_rules "isbn" = escape (trim b.isbn) := by
  refine ⟨?_, ?_, ?_, ?_⟩ <;>
    simp [fieldValue, book_create_post_rules, List.find?, runChain_trim_isLength_escape,
      Body.textField]

theorem fieldValue_update (b : Body) :
    fieldValue b book_update_post_rules "title" = escape (trim b.title) ∧
    fieldValue b book_update_post_rules "author" = escape (trim b.author) ∧
    fieldValue b book_update_post_rules "summary" = escape (trim b.summary) ∧
    fieldValue b book_update_post_rules "isbn" = escape (trim b.isbn) := by
  refine ⟨?_, ?_, ?_, ?_⟩ <;>
    simp [fieldValue, book_update_post_rules, List.find?, runChain_trim_isLength_escape,
      Body.textField]

theorem normalizeGenre_isUndefined (g : JsVal) : (normalizeGenre g).isUndefined = false := by
  cases g <;> simp [normalizeGenre, JsVal.isArray, JsVal.isUndefined]

theorem genreItems_eq (g : JsVal) :
    genreItems g = (normalizeGenre g).entries.map (fun x => escape x.text) := by
  simp [genreItems, runChain_escape]

theorem escape_trim_ne_empty (v : String) (h : trim v ≠ "") : escape (trim v) ≠ "" :=
  (one_le_length_iff _).mp
    (le_trans ((one_le_length_iff _).mpr h) (length_le_escape _))

theorem book_errors_ne_nil (b : Body)
    (h : trim b.title = "" ∨ trim b.author = "" ∨ trim b.summary = "" ∨ trim b.isbn = "") :
    book_create_post_errors b ≠ [] ∧ book_update_post_errors b ≠ [] := by
  rw [book_create_post_errors_eq, book_update_post_errors_eq]
  rcases h with h | h | h | h <;> simp [h]

theorem book_errors_eq_nil (b : Body)
    (h : ¬ (trim b.title = "" ∨ trim b.author = "" ∨ trim b.summary = "" ∨ trim b.isbn = "")) :
    book_create_post_errors b = [] ∧ book_update_post_errors b = [] := by
  rw [book_create_post_errors_eq, book_update_post_errors_eq]
  simp only [not_or] at h
  simp [h.1, h.2.1, h.2.2.1, h.2.2.2]

theorem mem_updateFirst {α : Type} (p : α → Bool) (f : α → α) (l : List α) (x : α)
    (hx : x ∈ updateFirst p f l) : x ∈ l ∨ ∃ old ∈ l, x = f old := by
  induction l with
  | nil => simp [updateFirst] at hx
  | cons a t ih =>
      unfold updateFirst at hx
      split at hx
      · rcases List.mem_cons.mp hx with h | h
        · exact Or.inr ⟨a, List.mem_cons_self _ _, h⟩
        · exact Or.inl (List.mem_cons_of_mem _ h)
      · rcases List.mem_cons.mp hx with h | h
        · exact Or.inl (h ▸ List.mem_cons_self _ _)
        · rcases ih h with h2 | ⟨old, hold, h2⟩
          · exact Or.inl (List.mem_cons_of_mem _ h2)
          · exact Or.inr ⟨old, List.mem_cons_of_mem _ hold, h2⟩

theorem book_of_create (newId : String) (b : Body) :
    ({ _id := newId,
       title := fieldValue b book_create_post_rules "title",
       author := fieldValue b book_create_post_rules "author",
       summary := fieldValue b book_create_post_rules "summary",
       isbn := fieldValue b book_create_post_rules "isbn",
       genre := genreItems b.genre } : Book) = sanitizedBook newId b := by
  obtain ⟨h1, h2, h3, h4⟩ := fieldValue_create b
  simp [sanitizedBook, h1, h2, h3, h4, genreItems_eq]

theorem book_of_update (id : String) (b : Body) :
    ({ _id := id,
       title := fieldValue b book_update_post_rules "title",
       author := fieldValue b book_update_post_rules "author",
       summary := fieldValue b book_update_post_rules "summary",
       isbn := fieldValue b book_update_post_rules "isbn",
       genre := if (normalizeGenre b.genre).isUndefined then []
                else genreItems b.genre } : Book) = sanitizedBook id b := by
  obtain ⟨h1, h2, h3, h4⟩ := fieldValue_update b
  simp [sanitizedBook, h1, h2, h3, h4, genreItems_eq, normalizeGenre_isUndefined]

theorem book_create_post_invalid (newId : String) (s : Store) (req : Request)
    (h : trim req.body.title = "" ∨ trim req.body.author = "" ∨
      trim req.body.summary = "" ∨ trim req.body.isbn = "") :
    book_create_post newId s req =
      ⟨s, [Call.render "book_form"
            [("title", Local.str "Create Book"), ("authors", Local.authors (Author.findSorted s)),
             ("genres", Local.genreOptions
                (markChecked (sanitizedBook newId req.body) (Genre.findSorted s))),
             ("book", Local.book (some (sanitizedBook newId req.body))),
             ("errors", Local.errors (book_create_post_errors req.body))]]⟩ := by
  have hne := (book_errors_ne_nil req.body h).1
  unfold book_create_post
  simp only [book_of_create]
  simp [hne]

theorem book_update_post_invalid (s : Store) (req : Request)
    (h : trim req.body.title = "" ∨ trim req.body.author = "" ∨
      trim req.body.summary = "" ∨ trim req.body.isbn = "") :
    book_update_post s req =
      ⟨s, [Call.render "book_form"
            [("title", Local.str "Update Book"), ("authors", Local.authors (Author.findSorted s)),
             ("genres", Local.genreOptions
                (markChecked (sanitizedBook req.params_id req.body) (Genre.findSorted s))),
             ("book", Local.book (some (sanitizedBook req.params_id req.body))),
             ("errors", Local.errors (book_update_post_errors req.body))]]⟩ := by
  have hne := (book_errors_ne_nil req.body h).2
  unfold book_update_post
  simp only [book_of_update]
  simp [hne]

theorem sanitizedBook_validate (id : String) (b : Body)
    (h : ¬ (trim b.title = "" ∨ trim b.author = "" ∨ trim b.summary = "" ∨ trim b.isbn = "")) :
    Book.validate (sanitizedBook id b) = [] := by
  simp only [not_or] at h
  simp [Book.validate, sanitizedBook, escape_trim_ne_empty _ h.1, escape_trim_ne_empty _ h.2.1,
    escape_trim_ne_empty _ h.2.2.1, escape_trim_ne_empty _ h.2.2.2]

theorem book_create_post_valid (newId : String) (s : Store) (req : Request)
    (h : ¬ (trim req.body.title = "" ∨ trim req.body.author = "" ∨
      trim req.body.summary = "" ∨ trim req.body.isbn = "")) :
    book_create_post newId s req =
      ⟨{ s with books := s.books ++ [sanitizedBook newId req.body] },
        [Call.redirect ("/catalog/book/" ++ newId)]⟩ := by
  have hnil := (book_errors_eq_nil req.body h).1
  unfold book_create_post
  simp only [book_of_create]
  simp [hnil, Book.save, sanitizedBook_validate newId req.body h, Book.url]
  rfl

theorem book_update_post_valid_store (s : Store) (req : Request)
    (h : ¬ (trim req.body.title = "" ∨ trim req.body.author = "" ∨
      trim req.body.summary = "" ∨ trim req.body.isbn = "")) :
    (book_update_post s req).store =
      (Book.findByIdAndUpdate s req.params_id (sanitizedBook req.params_id req.body)).2 := by
  have hnil := (book_errors_eq_nil req.body h).2
  unfold book_update_post
  simp only [book_of_update]
  simp only [hnil, List.isEmpty_nil, Bool.not_true, Bool.false_eq_true, if_false]
  cases hf : (Book.findByIdAndUpdate s req.params_id (sanitizedBook req.params_id req.body)).1 <;>
    rfl

theorem sanitizedBook_fields (id : String) (b : Body)
    (h : ¬ (trim b.title = "" ∨ trim b.author = "" ∨ trim b.summary = "" ∨ trim b.isbn = "")) :
    (sanitizedBook id b).title ≠ "" ∧ (sanitizedBook id b).author ≠ "" ∧
    (sanitizedBook id b).summary ≠ "" ∧ (sanitizedBook id b).isbn ≠ "" := by
  simp only [not_or] at h
  exact ⟨escape_trim_ne_empty _ h.1, escape_trim_ne_empty _ h.2.1,
    escape_trim_ne_empty _ h.2.2.1, escape_trim_ne_empty _ h.2.2.2⟩

/-- C11: for every submission in which the title, the author, the summary
or the ISBN is empty after `trim`, `book_create_post` and `book_update_post`
leave the store unchanged and render "book_form" (titled "Create Book",
resp. "Update Book") with the reference lists, the in-memory Book built
from the sanitized input and the non-empty error list; so a handler that
changed the store got four non-empty inputs, and every Book found in the
store after the request that was not there before has a non-empty title,
author, summary and ISBN. -/
theorem book_post_writes_only_valid (newId : String) (s : Store) (req : Request) :
    ((trim req.body.title = "" ∨ trim req.body.author = "" ∨
        trim req.body.summary = "" ∨ trim req.body.isbn = "") →
      book_create_post newId s req =
        ⟨s, [Call.render "book_form"
              [("title", Local.str "Create Book"),
               ("authors", Local.authors (Author.findSorted s)),
               ("genres", Local.genreOptions
                  (markChecked (sanitizedBook newId req.body) (Genre.findSorted s))),
               ("book", Local.book (some (sanitizedBook newId req.body))),
               ("errors", Local.errors (book_create_post_errors req.body))]]⟩ ∧
      book_update_post s req =
        ⟨s, [Call.render "book_form"
              [("title", Local.str "Update Book"),
               ("authors", Local.authors (Author.findSorted s)),
               ("genres", Local.genreOptions
                  (markChecked (sanitizedBook req.params_id req.body) (Genre.findSorted s))),
               ("book", Local.book (some (sanitizedBook req.params_id req.body))),
               ("errors", Local.errors (book_update_post_errors req.body))]]⟩ ∧
      book_create_post_errors req.body ≠ [] ∧ book_update_post_errors req.body ≠ []) ∧
    ((book_create_post newId s req).store ≠ s ∨ (book_update_post s req).store ≠ s →
      trim req.body.title ≠ "" ∧ trim req.body.author ≠ "" ∧
        trim req.body.summary ≠ "" ∧ trim req.body.isbn ≠ "") ∧
    (∀ bk ∈ (book_create_post newId s req).store.books, bk ∉ s.books →
      bk.title ≠ "" ∧ bk.author ≠ "" ∧ bk.summary ≠ "" ∧ bk.isbn ≠ "") ∧
    (∀ bk ∈ (book_update_post s req).store.books, bk ∉ s.books →
      bk.title ≠ "" ∧ bk.author ≠ "" ∧ bk.summary ≠ "" ∧ bk.isbn ≠ "") := by
  by_cases h : trim req.body.title = "" ∨ trim req.body.author = "" ∨
      trim req.body.summary = "" ∨ trim req.body.isbn = ""
  · have hc := book_create_post_invalid newId s req h
    have hu := book_update_post_invalid s req h
    have he := book_errors_ne_nil req.body h
    refine ⟨fun _ => ⟨hc, hu, he.1, he.2⟩, ?_, ?_, ?_⟩
    · rw [hc, hu]
      rintro (hne | hne) <;> exact absurd rfl hne
    · rw [hc]
      intro bk hbk hnot
      exact absurd hbk hnot
    · rw [hu]
      intro bk hbk hnot
      exact absurd hbk hnot
  · have hf := sanitizedBook_fields
    refine ⟨fun h2 => absurd h2 h, fun _ => by simpa only [not_or] using h, ?_, ?_⟩
    · rw [book_create_post_valid newId s req h]
      intro bk hbk hnot
      rcases List.mem_append.mp hbk with hin | hin
      · exact absurd hin hnot
      · rw [List.mem_singleton] at hin
        rw [hin]
        exact hf newId req.body h
    · rw [book_update_post_valid_store s req h]
      intro bk hbk hnot
      rcases mem_updateFirst _ _ _ _ hbk with hin | ⟨old, _, hin⟩
      · exact absurd hin hnot
      · rw [hin]
        exact hf req.params_id req.body h

/-- Witness for C11: a submission whose title is blank, sent to both
handlers on the sample store. -/
theorem book_post_writes_only_valid_witness :
    trim "  " = "" ∧
    (book_create_post "n1" libraryStore
        { params_id := "", body := { title := "  ", author := "au1", summary := "S",
                                     isbn := "1", genre := JsVal.str "g0" } }).store =
      libraryStore ∧
    (book_update_post libraryStore
        { params_id := "a", body := { title := "  ", author := "au1", summary := "S",
                                      isbn := "1", genre := JsVal.str "g0" } }).calls =
      [Call.render "book_form"
        [("title", Local.str "Update Book"), ("authors", Local.authors []),
         ("genres", Local.genreOptions [(⟨"g0", "Fantasy"⟩, true)]),
         ("book", Local.book (some ⟨"a", "", "au1", "S", "1", ["g0"]⟩)),
         ("errors", Local.errors [⟨"title", "Title must not be empty.", ""⟩])]] := by
  have h1 := (book_post_writes_only_valid "n1" libraryStore
    { params_id := "", body := { title := "  ", author := "au1", summary := "S",
                                 isbn := "1", genre := JsVal.str "g0" } }).1
    (Or.inl (by decide))
  have h2 := (book_post_writes_only_valid "n1" libraryStore
    { params_id := "a", body := { title := "  ", author := "au1", summary := "S",
                                  isbn := "1", genre := JsVal.str "g0" } }).1
    (Or.inl (by decide))
  refine ⟨by decide, ?_, ?_⟩
  · rw [h1.1]
  · rw [h2.2.1]
    decide

/-! ### Reference lists of the redisplayed Book form -/

theorem charsLE_total (a b : List Char) : charsLE a b = true ∨ charsLE b a = true := by
  induction a generalizing b with
  | nil => left; simp [charsLE]
  | cons x xs ih =>
    cases b with
    | nil => right; simp [charsLE]
    | cons y ys =>
      simp only [charsLE, Bool.or_eq_true, decide_eq_true_eq, Bool.and_eq_true, beq_iff_eq]
      rcases Nat.lt_trichotomy x.toNat y.toNat with h | h | h
      · left; left; exact h
      · rcases ih ys with h2 | h2
        · left; right; exact ⟨h, h2⟩
        · right; right; exact ⟨h.symm, h2⟩
      · right; left; exact h

theorem charsLE_trans (a b c : List Char) (h1 : charsLE a b = true) (h2 : charsLE b c = true) :
    charsLE a c = true := by
  induction a generalizing b c with
  | nil => simp [charsLE]
  | cons x xs ih =>
    cases b with
    | nil => simp [charsLE] at h1
    | cons y ys =>
      cases c with
      | nil => simp [charsLE] at h2
      | cons z zs =>
        simp only [charsLE, Bool.or_eq_true, decide_eq_true_eq, Bool.and_eq_true, beq_iff_eq] at *
        rcases h1 with h1 | ⟨h1, h1'⟩ <;> rcases h2 with h2 | ⟨h2, h2'⟩
        · left; omega
        · left; omega
        · left; omega
        · right; exact ⟨by omega, ih ys zs h1' h2'⟩

theorem sortByKey_sorted {α : Type} (key : α → String) (l : List α) :
    (sortByKey key l).Sorted (fun a b => charsLE (key a).data (key b).data = true) := by
  haveI : IsTotal α (fun a b => charsLE (key a).data (key b).data = true) :=
    ⟨fun a b => charsLE_total _ _⟩
  haveI : IsTrans α (fun a b => charsLE (key a).data (key b).data = true) :=
    ⟨fun a b c h1 h2 => charsLE_trans _ _ _ h1 h2⟩
  exact List.sorted_insertionSort _ l

theorem sortByKey_perm {α : Type} (key : α → String) (l : List α) :
    (sortByKey key l).Perm l :=
  List.perm_insertionSort _ l

theorem markChecked_spec (book : Book) (allGenres : List Genre) :
    (markChecked book allGenres).map Prod.fst = allGenres ∧
    ∀ p ∈ markChecked book allGenres, (p.2 = true ↔ p.1._id ∈ book.genre) := by
  constructor
  · simp [markChecked, List.map_map, Function.comp_def]
  · intro p hp
    obtain ⟨g, _, hg⟩ := List.mem_map.mp hp
    rw [← hg]
    simp

theorem mem_sanitized_genre (g : JsVal) (id : String) (hid : escape id = id) :
    id ∈ (normalizeGenre g).entries.map (fun x => escape x.text) ↔
      ∃ x ∈ (normalizeGenre g).entries, x.text = id := by
  rw [List.mem_map]
  constructor
  · rintro ⟨x, hx, hxe⟩
    exact ⟨x, hx, escape_eq_of_fixed _ _ hxe hid⟩
  · rintro ⟨x, hx, hxe⟩
    exact ⟨x, hx, by rw [hxe, hid]⟩

/-- C15: when `book_create_post` or `book_update_post` redisplays the form
(an input is empty after `trim`), the view-model holds under `authors` the
result of the Author query sorted by family name and under `genres` the
Genres of the Genre query sorted by name, same elements in the same order,
each with its flag; a Genre is flagged `checked` exactly when its
identifier is among the sanitized entries of the normalized selection,
which for an identifier free of markup characters means exactly when it
occurs in the normalized selection. Both query results are sorted
permutations of the stored documents. -/
theorem book_form_redisplay_lists (newId : String) (s : Store) (req : Request)
    (h : trim req.body.title = "" ∨ trim req.body.author = "" ∨
      trim req.body.summary = "" ∨ trim req.body.isbn = "") :
    (∃ locals opts,
      book_create_post newId s req = ⟨s, [Call.render "book_form" locals]⟩ ∧
      lookupLocal "authors" locals = some (Local.authors (Author.findSorted s)) ∧
      lookupLocal "genres" locals = some (Local.genreOptions opts) ∧
      opts.map Prod.fst = Genre.findSorted s ∧
      ∀ p ∈ opts,
        (p.2 = true ↔
          p.1._id ∈ (normalizeGenre req.body.genre).entries.map (fun x => escape x.text)) ∧
        (escape p.1._id = p.1._id →
          (p.2 = true ↔ ∃ x ∈ (normalizeGenre req.body.genre).entries, x.text = p.1._id))) ∧
    (∃ locals opts,
      book_update_post s req = ⟨s, [Call.render "book_form" locals]⟩ ∧
      lookupLocal "authors" locals = some (Local.authors (Author.findSorted s)) ∧
      lookupLocal "genres" locals = some (Local.genreOptions opts) ∧
      opts.map Prod.fst = Genre.findSorted s ∧
      ∀ p ∈ opts,
        (p.2 = true ↔
          p.1._id ∈ (normalizeGenre req.body.genre).entries.map (fun x => escape x.text)) ∧
        (escape p.1._id = p.1._id →
          (p.2 = true ↔ ∃ x ∈ (normalizeGenre req.body.genre).entries, x.text = p.1._id))) ∧
    (Genre.findSorted s).Perm s.genres ∧
    (Genre.findSorted s).Sorted (fun a b => charsLE a.name.data b.name.data = true) ∧
    (Author.findSorted s).Perm s.authors ∧
    (Author.findSorted s).Sorted
      (fun a b => charsLE a.family_name.data b.family_name.data = true) := by
  have hflags : ∀ (id : String), ∀ p ∈ markChecked (sanitizedBook id req.body) (Genre.findSorted s),
      (p.2 = true ↔
        p.1._id ∈ (normalizeGenre req.body.genre).entries.map (fun x => escape x.text)) ∧
      (escape p.1._id = p.1._id →
        (p.2 = true ↔ ∃ x ∈ (normalizeGenre req.body.genre).entries, x.text = p.1._id)) := by
    intro id p hp
    have hiff := (markChecked_spec (sanitizedBook id req.body) (Genre.findSorted s)).2 p hp
    refine ⟨hiff, fun hid => ?_⟩
    rw [hiff]
    exact mem_sanitized_genre req.body.genre p.1._id hid
  refine ⟨⟨_, _, book_create_post_invalid newId s req h, ?_, ?_,
      (markChecked_spec _ _).1, hflags newId⟩,
    ⟨_, _, book_update_post_invalid s req h, ?_, ?_, (markChecked_spec _ _).1,
      hflags req.params_id⟩,
    sortByKey_perm _ _, sortByKey_sorted _ _, sortByKey_perm _ _, sortByKey_sorted _ _⟩ <;>
    simp [lookupLocal]

/-- Witness for C15: a blank title with the selection "g0" on a store whose
Genres and Authors are stored out of order. -/
theorem book_form_redisplay_lists_witness :
    trim " " = "" ∧
    (Genre.findSorted shelfStore).Perm shelfStore.genres ∧
    book_create_post "n1" shelfStore
        { params_id := "", body := { title := " ", author := "au1", summary := "S",
                                     isbn := "1", genre := JsVal.str "g0" } } =
      ⟨shelfStore,
        [Call.render "book_form"
          [("title", Local.str "Create Book"),
           ("authors", Local.authors
              [⟨"au2", "Frank", "Austen", none, none⟩, ⟨"au1", "Jane", "Woolf", none, none⟩]),
           ("genres", Local.genreOptions
              [(⟨"g0", "Fantasy"⟩, true), (⟨"g2", "Horror"⟩, false),
               (⟨"g1", "Poetry"⟩, false)]),
           ("book", Local.book (some ⟨"n1", "", "au1", "S", "1", ["g0"]⟩)),
           ("errors", Local.errors [⟨"title", "Title must not be empty.", ""⟩])]]⟩ := by
  have h := book_form_redisplay_lists "n1" shelfStore
    { params_id := "", body := { title := " ", author := "au1", summary := "S",
                                 isbn := "1", genre := JsVal.str "g0" } }
    (Or.inl (by decide))
  exact ⟨by decide, h.2.2.1, by decide⟩

end LocalLibrary
